import Mathlib

/-!
Verification development for the agent orchestration abstraction layer of
`pm_net` (`apps/CORE_UI/backend/src/agents/`): the data model (`types.py`),
the in-memory provider (`mock_provider.py`), the external-gateway provider
(`openclaw_provider.py`) and the orchestration service (`agent_service.py`)
are shallowly embedded as pure Lean functions over explicit state records.

Conventions of the embedding:
* Python `dict`s keyed by id (insertion-ordered, in-place value replacement)
  are association lists `List (String × α)`; `AList.insert` replaces in place
  when the key is present and appends otherwise, `AList.values` is
  `dict.values()` in insertion order.
* Timestamps (`datetime.utcnow()`) are abstract `Nat` ticks supplied as a
  `now` argument at each call that stamps a time.
* `async` methods that mutate `self` become functions `State → ... → State × result`;
  a method that can raise returns `State × Except Err result`.
* The fire-and-forget `asyncio.create_task(self._execute_task ...)` coroutine
  is split at its single suspension point (`await asyncio.sleep(2)` /
  the awaited HTTP call) into a `begin` phase and a `finish` phase; a
  provider-level step relation interleaves these phases with the public
  operations exactly as the cooperative scheduler can.
* Mutation of an object fetched from a dict (`task = self._tasks[tid]; task.x = v`)
  is modelled as replacement at the same key, which coincides with Python's
  aliasing semantics as long as the entry is not replaced by a distinct
  object under the same key while a reference is held.
* Remote HTTP interactions of the OpenClaw provider are oracles: each call
  site takes the outcome of its `httpx` request as an explicit argument
  (a status-coded response, a raised `httpx.HTTPStatusError`, or another
  raised exception such as a transport error).
-/

namespace PmNet

/-- Insertion-ordered association list standing for a Python `dict`. -/
abbrev AList (α : Type) := List (String × α)

namespace AList

/-- `m[k]` lookup returning the first (unique, in our states) binding. -/
def find? (m : AList α) (k : String) : Option α :=
  match m with
  | [] => none
  | (k', v) :: rest => if k' = k then some v else find? rest k

/-- `k in m`. -/
def contains (m : AList α) (k : String) : Bool :=
  (m.find? k).isSome

/-- `m[k] = v`: replaces in place when the key is present (Python dicts keep
the original insertion position on assignment), appends otherwise. Keys are
unique in every state our operations build, so replacing the first
occurrence is dict assignment. -/
def insert (m : AList α) (k : String) (v : α) : AList α :=
  match m with
  | [] => [(k, v)]
  | (k', v') :: rest =>
    if k' = k then (k, v) :: rest else (k', v') :: insert rest k v

/-- `del m[k]`. -/
def erase (m : AList α) (k : String) : AList α :=
  match m with
  | [] => []
  | (k', v') :: rest => if k' = k then erase rest k else (k', v') :: erase rest k

/-- `m[k].f = v` style in-place mutation: rewrite the value at `k` (no-op when
the key is absent). -/
def modify (m : AList α) (k : String) (f : α → α) : AList α :=
  match m with
  | [] => []
  | (k', v') :: rest =>
    if k' = k then (k', f v') :: rest else (k', v') :: modify rest k f

/-- `list(m.values())` in insertion order. -/
def values (m : AList α) : List α :=
  m.map Prod.snd

theorem find?_insert_self (m : AList α) (k : String) (v : α) :
    (m.insert k v).find? k = some v := by
  induction m with
  | nil => simp [insert, find?]
  | cons q rest ih =>
    obtain ⟨k', v'⟩ := q
    by_cases h : k' = k <;> simp [insert, find?, h, ih]

theorem find?_insert_ne (m : AList α) {k k' : String} (v : α) (h : k' ≠ k) :
    (m.insert k v).find? k' = m.find? k' := by
  have hk : ¬ (k = k') := fun he => h (Eq.symm he)
  induction m with
  | nil => simp [insert, find?, hk]
  | cons q rest ih =>
    obtain ⟨a, b⟩ := q
    by_cases ha : a = k
    · simp [insert, find?, ha, hk]
    · simp [insert, find?, ha, ih]

theorem find?_modify_self (m : AList α) (k : String) (f : α → α) :
    (m.modify k f).find? k = (m.find? k).map f := by
  induction m with
  | nil => simp [modify, find?]
  | cons q rest ih =>
    obtain ⟨a, b⟩ := q
    by_cases ha : a = k <;> simp [modify, find?, ha, ih]

theorem find?_modify_ne (m : AList α) {k k' : String} (f : α → α) (h : k' ≠ k) :
    (m.modify k f).find? k' = m.find? k' := by
  induction m with
  | nil => simp [modify, find?]
  | cons q rest ih =>
    obtain ⟨a, b⟩ := q
    by_cases ha : a = k
    · have hk : ¬ (k = k') := fun he => h (Eq.symm he)
      simp [modify, find?, ha, hk]
    · simp [modify, find?, ha, ih]

theorem find?_erase_self (m : AList α) (k : String) :
    (m.erase k).find? k = none := by
  induction m with
  | nil => simp [erase, find?]
  | cons q rest ih =>
    obtain ⟨a, b⟩ := q
    by_cases ha : a = k
    · simp [erase, ha, ih]
    · simp [erase, find?, ha, ih]

theorem find?_erase_ne (m : AList α) {k k' : String} (h : k' ≠ k) :
    (m.erase k).find? k' = m.find? k' := by
  induction m with
  | nil => simp [erase, find?]
  | cons q rest ih =>
    obtain ⟨a, b⟩ := q
    by_cases ha : a = k
    · have hk : ¬ (k = k') := fun he => h (Eq.symm he)
      simp [erase, find?, ha, hk, ih]
    · simp [erase, find?, ha, ih]

theorem mem_insert {m : AList α} {k : String} {v : α} {p : String × α}
    (hp : p ∈ m.insert k v) : p = (k, v) ∨ p ∈ m := by
  induction m with
  | nil => simpa [insert] using hp
  | cons q rest ih =>
    obtain ⟨a, b⟩ := q
    by_cases ha : a = k
    · simp only [insert, ha, if_pos] at hp
      rcases List.mem_cons.mp hp with h | h
      · left; exact h
      · right; exact List.mem_cons_of_mem _ h
    · simp only [insert, ha, if_neg, not_false_iff] at hp
      rcases List.mem_cons.mp hp with h | h
      · right; exact h ▸ List.mem_cons_self _ _
      · rcases ih h with h' | h'
        · left; exact h'
        · right; exact List.mem_cons_of_mem _ h'

theorem mem_modify {m : AList α} {k : String} {f : α → α} {p : String × α}
    (hp : p ∈ m.modify k f) : p ∈ m ∨ ∃ v, (k, v) ∈ m ∧ p = (k, f v) := by
  induction m with
  | nil => simp [modify] at hp
  | cons q rest ih =>
    obtain ⟨a, b⟩ := q
    by_cases ha : a = k
    · simp only [modify, ha, if_pos] at hp
      rcases List.mem_cons.mp hp with h | h
      · right
        exact ⟨b, by simp [ha], by simpa [ha] using h⟩
      · left; exact List.mem_cons_of_mem _ h
    · simp only [modify, ha, if_neg, not_false_iff] at hp
      rcases List.mem_cons.mp hp with h | h
      · left; exact h ▸ List.mem_cons_self _ _
      · rcases ih h with h' | ⟨v, hv, he⟩
        · left; exact List.mem_cons_of_mem _ h'
        · right; exact ⟨v, List.mem_cons_of_mem _ hv, he⟩

theorem mem_erase {m : AList α} {k : String} {p : String × α}
    (hp : p ∈ m.erase k) : p ∈ m := by
  induction m with
  | nil => simp [erase] at hp
  | cons q rest ih =>
    obtain ⟨a, b⟩ := q
    by_cases ha : a = k
    · simp only [erase, ha, if_pos] at hp
      exact List.mem_cons_of_mem _ (ih hp)
    · simp only [erase, ha, if_neg, not_false_iff] at hp
      rcases List.mem_cons.mp hp with h | h
      · exact h ▸ List.mem_cons_self _ _
      · exact List.mem_cons_of_mem _ (ih h)

theorem find?_mem {m : AList α} {k : String} {v : α}
    (h : m.find? k = some v) : (k, v) ∈ m := by
  induction m with
  | nil => simp [find?] at h
  | cons q rest ih =>
    obtain ⟨a, b⟩ := q
    by_cases ha : a = k
    · simp only [find?, ha, if_pos] at h
      obtain rfl : b = v := by injection h
      exact List.mem_cons.mpr (Or.inl (by simp [ha]))
    · simp only [find?, ha, if_neg, not_false_iff] at h
      exact List.mem_cons_of_mem _ (ih h)

end AList

/-! ## Data model (`types.py`) -/

/-- `AgentStatus.status : Literal["active", "idle", "busy", "error", "offline"]`. -/
inductive AgentState
  | active | idle | busy | error | offline
  deriving DecidableEq, Repr

/-- `TaskStatus.status : Literal["queued", "running", "completed", "failed", "cancelled"]`. -/
inductive TaskState
  | queued | running | completed | failed | cancelled
  deriving DecidableEq, Repr

/-- Opaque string-keyed mapping (the dynamically shaped `Dict[str, Any]`
payloads: `metadata`, `input_data`, `config`, ...). Values are kept opaque as
strings; the claims never inspect them. -/
abbrev Payload := List (String × String)

/-- `class AgentStatus(BaseModel)` — live view of an agent.
`uptime_seconds` is omitted: it is constant 0 in both providers and no claim
mentions it. `last_activity` is a tick. -/
structure AgentStatus where
  agent_id : String
  name : String
  status : AgentState
  current_task : Option String := none
  tasks_completed : Nat := 0
  tasks_failed : Nat := 0
  last_activity : Option Nat := none
  metadata : Payload := []
  deriving DecidableEq, Repr

/-- `class TaskStatus(BaseModel)` — live view of a task. `result` is the
`{"output": ..., "data": ...}` mapping built by the providers. -/
structure TaskStatus where
  task_id : String
  agent_id : Option String := none
  status : TaskState
  priority : Int := 0
  created_at : Nat
  started_at : Option Nat := none
  completed_at : Option Nat := none
  error : Option String := none
  result : Option (String × Payload) := none
  metadata : Payload := []
  deriving DecidableEq, Repr

/-- `class AgentConfig(BaseModel)` — creation input (fields the providers
read; `capabilities`/`max_concurrent_tasks`/`temperature` are never consulted
by either provider and are dropped from the embedding). -/
structure AgentConfig where
  agent_id : String
  name : String
  description : String
  provider : String
  workspace_path : Option String := none
  model : Option String := none
  tools : List String := []
  config : Payload := []
  deriving DecidableEq, Repr

/-- `class TaskRequest(BaseModel)` — submission input. -/
structure TaskRequest where
  task_id : Option String := none
  agent_id : Option String := none
  description : String
  input_data : Payload := []
  priority : Int := 0
  timeout_seconds : Option Nat := none
  metadata : Payload := []
  deriving DecidableEq, Repr

/-- `class SystemMetrics(BaseModel)`. The average is kept exact (`ℚ`) instead
of a float; durations are `Int` seconds (`total_seconds()` of tick
differences). -/
structure SystemMetrics where
  total_agents : Nat
  active_agents : Nat
  idle_agents : Nat
  busy_agents : Nat
  error_agents : Nat
  total_tasks_queued : Nat
  total_tasks_running : Nat
  total_tasks_completed : Nat
  total_tasks_failed : Nat
  average_task_time_seconds : ℚ
  provider : String
  uptime_seconds : Nat
  deriving DecidableEq, Repr

/-- Python truthiness of an `Optional[str]`: `if not agent_id` is taken for
`None` and for the empty string. -/
def strTruthy : Option String → Bool
  | none => false
  | some s => s ≠ ""

/-- Canonical string rendering of a list value stored in an opaque metadata
mapping (`Payload` values are strings; the claims never read them back). -/
def renderStrList (l : List String) : String :=
  String.intercalate "," l

/-- Canonical string rendering of a nested mapping stored in a metadata slot. -/
def renderPayload (p : Payload) : String :=
  String.intercalate ";" (p.map (fun kv => kv.1 ++ "=" ++ kv.2))

/-! ## In-memory provider (`mock_provider.py`, class `MockAgentProvider`)

The fire-and-forget coroutine `_execute_task` has exactly one suspension
point, `await asyncio.sleep(2)`. It is split into `execute_task_begin`
(lines 140–156: guard, agent → busy, task → running) and
`execute_task_finish` (lines 158–170: task → completed, agent back to idle).
The provider state carries the pending execution units keyed by task id,
each holding the submitted `TaskRequest` (captured in the coroutine's
closure) and its phase. -/

/-- Where a task's background execution unit currently stands. -/
inductive ExecPhase
  | notStarted  -- `asyncio.create_task` ran, the coroutine body has not
  | sleeping    -- suspended at `await asyncio.sleep(2)`
  deriving DecidableEq, Repr

/-- State of one `MockAgentProvider` instance: `self._agents`, `self._tasks`,
`self._initialized`, plus the set of live `_execute_task` coroutines. -/
structure MockState where
  agents : AList AgentStatus
  tasks : AList TaskStatus
  execs : AList (TaskRequest × ExecPhase)
  initialized : Bool
  deriving DecidableEq, Repr

namespace MockAgentProvider

/-- Fresh instance, `__init__`. -/
def init_state : MockState :=
  { agents := [], tasks := [], execs := [], initialized := false }

/-- `create_agent` (lines 85–102): unconditionally builds a fresh idle
`AgentStatus` and assigns it into `self._agents`. -/
def create_agent (s : MockState) (cfg : AgentConfig) (now : Nat) :
    MockState × AgentStatus :=
  let st : AgentStatus :=
    { agent_id := cfg.agent_id
      name := cfg.name
      status := .idle
      tasks_completed := 0
      tasks_failed := 0
      last_activity := some now
      metadata := [("description", cfg.description),
                   ("tools", renderStrList cfg.tools),
                   ("config", renderPayload cfg.config)] }
  ({ s with agents := s.agents.insert cfg.agent_id st }, st)

/-- `delete_agent` (lines 104–109). -/
def delete_agent (s : MockState) (aid : String) : MockState × Bool :=
  if s.agents.contains aid then
    ({ s with agents := s.agents.erase aid }, true)
  else
    (s, false)

/-- The three deterministic default agents seeded by `initialize`
(lines 39–64). -/
def default_agents : List AgentConfig :=
  [ { agent_id := "agent-planning", name := "Planning Agent"
      description := "Handles task planning and decomposition"
      provider := "mock"
      tools := ["task_breakdown", "dependency_analysis"]
      config := [("role", "planner")] },
    { agent_id := "agent-execution", name := "Execution Agent"
      description := "Executes approved tasks and reports progress"
      provider := "mock"
      tools := ["code_execution", "file_operations"]
      config := [("role", "executor")] },
    { agent_id := "agent-verification", name := "Verification Agent"
      description := "Verifies task completion and quality"
      provider := "mock"
      tools := ["test_runner", "quality_check"]
      config := [("role", "verifier")] } ]

/-- The provider's `initialize` method (lines 34–67; `initialize` is a Lean
keyword, hence the shortened name): set `_initialized`, create the defaults. -/
def init (s : MockState) (now : Nat) : MockState :=
  default_agents.foldl (fun st cfg => (create_agent st cfg now).1)
    { s with initialized := true }

/-- `shutdown` (lines 69–73). The `execs` units are coroutines, not
collections owned by the provider; they are untouched here as in the source. -/
def shutdown (s : MockState) : MockState :=
  { s with agents := [], tasks := [], initialized := false }

/-- `list_agents` (lines 75–77). -/
def list_agents (s : MockState) : List AgentStatus :=
  s.agents.values

/-- `get_agent_status` (lines 79–83), `ValueError` on unknown id. -/
def get_agent_status (s : MockState) (aid : String) : Except String AgentStatus :=
  match s.agents.find? aid with
  | none => .error ("Agent " ++ aid ++ " not found")
  | some a => .ok a

/-- `task.task_id or f"task-\x7buuid4().hex[:8]\x7d"` (line 113): the
caller-supplied id unless it is falsy (`None` or empty). -/
def resolve_task_id (req : TaskRequest) (genId : String) : String :=
  match req.task_id with
  | none => genId
  | some t => if t = "" then genId else t

/-- The auto-routing of `submit_task` (lines 115–120): keep a truthy
caller-supplied binding, otherwise the first idle agent in roster order,
otherwise the original (falsy) value. -/
def route_agent_id (s : MockState) (req : TaskRequest) : Option String :=
  if strTruthy req.agent_id then
    req.agent_id
  else
    match (s.agents.values.filter (fun a => a.status == .idle)).head? with
    | some a => some a.agent_id
    | none => req.agent_id

/-- The `TaskStatus` record built by `submit_task` (lines 122–129). -/
def submitted_task (s : MockState) (req : TaskRequest) (genId : String)
    (now : Nat) : TaskStatus :=
  { task_id := resolve_task_id req genId
    agent_id := route_agent_id s req
    status := .queued
    priority := req.priority
    created_at := now
    metadata := req.metadata }

/-- `submit_task` (lines 111–136). `genId` stands for the generated
`f"task-\x7buuid4().hex[:8]\x7d"`. Registers the task `queued` and spawns the
execution unit. -/
def submit_task (s : MockState) (req : TaskRequest) (genId : String) (now : Nat) :
    MockState × TaskStatus :=
  let tid := resolve_task_id req genId
  let ts := submitted_task s req genId now
  ({ s with
      tasks := s.tasks.insert tid ts
      execs := s.execs.insert tid (req, .notStarted) },
   ts)

/-- First half of `_execute_task` (lines 138–156), up to the
`await asyncio.sleep(2)`. Returns the new state and whether the guard
`if agent_id and agent_id in self._agents` passed (i.e. whether the
coroutine is now suspended in the sleep rather than finished). A missing
task id would be a `KeyError` in the source; it cannot occur for units
spawned by `submit_task`, and is modelled as the unit ending silently. -/
def execute_task_begin (s : MockState) (tid : String) (now : Nat) :
    MockState × Bool :=
  match s.tasks.find? tid with
  | none => (s, false)
  | some t =>
    match t.agent_id with
    | none => (s, false)
    | some aid =>
      if aid = "" then (s, false)
      else if s.agents.contains aid then
        ({ s with
            agents := s.agents.modify aid (fun a =>
              { a with status := .busy, current_task := some tid,
                       last_activity := some now })
            tasks := s.tasks.insert tid
              { t with status := .running, started_at := some now } },
         true)
      else (s, false)

/-- Second half of `_execute_task` (lines 158–170), after the sleep: the task
is stamped `completed` with the canned result echoing `task.input_data`, and
the captured agent is released. The source mutates the `task_status` and
`agent` objects captured before the sleep; this is modelled as replacement at
the same key, which has the same visible effect unless the entry was replaced
by a distinct object under the same key during the sleep. -/
def execute_task_finish (s : MockState) (tid : String) (req : TaskRequest)
    (now : Nat) : MockState :=
  match s.tasks.find? tid with
  | none => s
  | some t =>
    let s1 := { s with
      tasks := s.tasks.insert tid
        { t with status := .completed, completed_at := some now,
                 result := some ("Task " ++ tid ++ " completed successfully",
                                 req.input_data) } }
    match t.agent_id with
    | none => s1
    | some aid =>
      { s1 with
        agents := s1.agents.modify aid (fun a =>
          { a with status := .idle, current_task := none,
                   tasks_completed := a.tasks_completed + 1,
                   last_activity := some now }) }

/-- `get_task_status` (lines 172–176), `ValueError` on unknown id. -/
def get_task_status (s : MockState) (tid : String) : Except String TaskStatus :=
  match s.tasks.find? tid with
  | none => .error ("Task " ++ tid ++ " not found")
  | some t => .ok t

/-- `cancel_task` (lines 178–185): flip a `queued`/`running` task to
`cancelled` (nothing else — in particular `completed_at` is not written)
and report success; otherwise report failure. -/
def cancel_task (s : MockState) (tid : String) : MockState × Bool :=
  match s.tasks.find? tid with
  | none => (s, false)
  | some t =>
    if t.status = .queued ∨ t.status = .running then
      ({ s with tasks := s.tasks.insert tid { t with status := .cancelled } },
       true)
    else
      (s, false)

/-- `list_tasks` (lines 187–202): optional truthy equality filters, truncate. -/
def list_tasks (s : MockState) (aid : Option String) (status : Option TaskState)
    (limit : Nat) : List TaskStatus :=
  let tasks : List TaskStatus := s.tasks.values
  let tasks : List TaskStatus :=
    if strTruthy aid then tasks.filter (fun t => t.agent_id == aid) else tasks
  let tasks : List TaskStatus :=
    match status with
    | some st => tasks.filter (fun t => t.status == st)
    | none => tasks
  tasks.take limit

/-- Wall-clock duration `(t.completed_at - t.started_at).total_seconds()`
of a task, on the tick model. -/
def durationSec (t : TaskStatus) : Int :=
  ((t.completed_at.getD 0 : Nat) : Int) - ((t.started_at.getD 0 : Nat) : Int)

/-- `get_system_metrics` (lines 204–239). `uptime` stands for
`time.time() - self._start_time`. -/
def get_system_metrics (s : MockState) (uptime : Nat) : SystemMetrics :=
  let agents := s.agents.values
  let tasks := s.tasks.values
  let completed := tasks.filter (fun t =>
    t.status == .completed && t.started_at.isSome && t.completed_at.isSome)
  let avg : ℚ :=
    if completed.length = 0 then 0
    else (completed.map (fun t => (durationSec t : ℚ))).sum / (completed.length : ℚ)
  { total_agents := agents.length
    active_agents := agents.countP (fun a => a.status == .idle || a.status == .busy)
    idle_agents := agents.countP (fun a => a.status == .idle)
    busy_agents := agents.countP (fun a => a.status == .busy)
    error_agents := agents.countP (fun a => a.status == .error)
    total_tasks_queued := tasks.countP (fun t => t.status == .queued)
    total_tasks_running := tasks.countP (fun t => t.status == .running)
    total_tasks_completed := tasks.countP (fun t => t.status == .completed)
    total_tasks_failed := tasks.countP (fun t => t.status == .failed)
    average_task_time_seconds := avg
    provider := "mock"
    uptime_seconds := uptime }

/-- One scheduler step of `exec_begin`: run the synchronous half of
`_execute_task`; the unit either suspends at the sleep (phase → `sleeping`)
or the coroutine returns (unit removed). -/
def exec_begin_step (s : MockState) (tid : String) (now : Nat) : MockState :=
  let p := execute_task_begin s tid now
  if p.2 then
    { p.1 with execs := p.1.execs.modify tid (fun u => (u.1, ExecPhase.sleeping)) }
  else
    { p.1 with execs := p.1.execs.erase tid }

/-- One scheduler step of `exec_finish`: the sleep elapses, the rest of
`_execute_task` runs, the coroutine returns. -/
def exec_finish_step (s : MockState) (tid : String) (req : TaskRequest)
    (now : Nat) : MockState :=
  let s' := execute_task_finish s tid req now
  { s' with execs := s'.execs.erase tid }

end MockAgentProvider

/-- One observable state-changing event on a `MockAgentProvider` instance:
a public mutating operation, or one scheduler resumption of a background
execution unit. Read-only operations do not change state and need no label. -/
inductive MockLabel
  | initOp (now : Nat)
  | shutdownOp
  | createAgent (cfg : AgentConfig) (now : Nat)
  | deleteAgent (aid : String)
  | submitTask (req : TaskRequest) (genId : String) (now : Nat)
  | execBegin (tid : String) (now : Nat)
  | execFinish (tid : String) (now : Nat)
  | cancelTask (tid : String)
  deriving DecidableEq, Repr

/-- Small-step transition relation of the in-memory provider under the
cooperative scheduler: public operations run atomically (they contain no
`await` between mutations), and each background execution unit contributes
its two halves as separate steps. -/
inductive MockStep : MockState → MockLabel → MockState → Prop
  | init_op {s now} :
      MockStep s (.initOp now) (MockAgentProvider.init s now)
  | shutdown_op {s} :
      MockStep s .shutdownOp (MockAgentProvider.shutdown s)
  | create_agent {s cfg now} :
      MockStep s (.createAgent cfg now) (MockAgentProvider.create_agent s cfg now).1
  | delete_agent {s aid} :
      MockStep s (.deleteAgent aid) (MockAgentProvider.delete_agent s aid).1
  | submit_task {s req genId now} :
      MockStep s (.submitTask req genId now)
        (MockAgentProvider.submit_task s req genId now).1
  | exec_begin {s tid req now}
      (h : s.execs.find? tid = some (req, ExecPhase.notStarted)) :
      MockStep s (.execBegin tid now) (MockAgentProvider.exec_begin_step s tid now)
  | exec_finish {s tid req now}
      (h : s.execs.find? tid = some (req, ExecPhase.sleeping)) :
      MockStep s (.execFinish tid now)
        (MockAgentProvider.exec_finish_step s tid req now)
  | cancel_task {s tid} :
      MockStep s (.cancelTask tid) (MockAgentProvider.cancel_task s tid).1

/-- States of an initialized in-memory provider reachable by any
interleaving of operations and execution-unit resumptions. -/
inductive MockReach : MockState → Prop
  | start (now : Nat) :
      MockReach (MockAgentProvider.init MockAgentProvider.init_state now)
  | step {s l s'} : MockReach s → MockStep s l s' → MockReach s'

/-- A finite labelled run of the in-memory provider. -/
inductive MockSteps : MockState → List MockLabel → MockState → Prop
  | nil {s} : MockSteps s [] s
  | cons {s l s' ls s''} :
      MockStep s l s' → MockSteps s' ls s'' → MockSteps s (l :: ls) s''

/-! ## External-gateway provider (`openclaw_provider.py`, class `OpenClawProvider`)

Every `httpx` interaction is an oracle argument: the call either returned a
response with some status code (httpx does not raise on non-2xx status — only
an explicit `raise_for_status()` does), or raised `httpx.HTTPStatusError`, or
raised some other exception (connect error, timeout, ...). -/

/-- Outcome of one awaited `httpx` request, with the parsed body when the
code consumes it. -/
inductive HttpOutcome (α : Type)
  | resp (code : Nat) (body : α)
  | statusError (code : Nat)
  | exn (msg : String)
  deriving DecidableEq, Repr

/-- Python exceptions that cross the embedded functions' boundaries. -/
inductive PyErr
  | valueError (msg : String)
  | runtimeError (msg : String)
  | connectionError (msg : String)
  | notImplementedError (msg : String)
  | httpStatusError (code : Nat)
  | otherError (msg : String)
  deriving DecidableEq, Repr

/-- One agent entry of the gateway's `/api/agents/list` JSON, fields as read
by `_sync_agents` (the resolved `agent_data.get("id", agent_data.get("agentId"))`
is assumed present — a missing id would fail pydantic validation). -/
structure RemoteAgent where
  id : String
  name : Option String := none
  workspace : Option String := none
  channels : List String := []
  tools : List String := []
  sandbox : Payload := []
  deriving DecidableEq, Repr

/-- State of one `OpenClawProvider` instance. `api_key`/`channels`/the raw
client handle only feed `health_check` and header construction and are
omitted; `execs` carries the live `_execute_openclaw_task` coroutines
(captured request and agent id, and phase). -/
structure OpenClawState where
  gateway_url : String
  workspace_path : String
  default_model : String
  agents : AList AgentStatus
  tasks : AList TaskStatus
  execs : AList (TaskRequest × String × ExecPhase)
  initialized : Bool
  deriving DecidableEq, Repr

namespace OpenClawProvider

/-- `__init__` (lines 36–47) with the config defaults applied. -/
def init_state (gateway_url workspace_path default_model : String) : OpenClawState :=
  { gateway_url := gateway_url, workspace_path := workspace_path
    default_model := default_model
    agents := [], tasks := [], execs := [], initialized := false }

/-- The `AgentStatus` built for one externally-reported agent
(lines 98–112): always a fresh record — `status="idle"`, both counters 0. -/
def remote_agent_status (r : RemoteAgent) (now : Nat) : AgentStatus :=
  { agent_id := r.id
    name := r.name.getD r.id
    status := .idle
    tasks_completed := 0
    tasks_failed := 0
    last_activity := some now
    metadata := [("workspace", r.workspace.getD ""),
                 ("channels", renderStrList r.channels),
                 ("tools", renderStrList r.tools),
                 ("sandbox", renderPayload r.sandbox)] }

/-- The merge loop of `_sync_agents` (lines 95–113): each reported agent is
assigned into `self._agents`, overwriting any existing entry; nothing is
removed. -/
def merge_remote_agents (agents : AList AgentStatus) (rs : List RemoteAgent)
    (now : Nat) : AList AgentStatus :=
  rs.foldl (fun m r => m.insert r.id (remote_agent_status r now)) agents

/-- `config.config.get("workspace", f"\x7bself.workspace_path\x7d/\x7bconfig.agent_id\x7d")`. -/
def cfg_workspace (s : OpenClawState) (cfg : AgentConfig) : String :=
  match AList.find? cfg.config "workspace" with
  | some w => w
  | none => s.workspace_path ++ "/" ++ cfg.agent_id

/-- `config.config.get("sandbox", {"mode": "off"})`, rendered. -/
def cfg_sandbox (cfg : AgentConfig) : String :=
  match AList.find? cfg.config "sandbox" with
  | some v => v
  | none => renderPayload [("mode", "off")]

/-- The fresh `AgentStatus` stored on a 2xx gateway response (lines 218–232). -/
def created_status (s : OpenClawState) (cfg : AgentConfig) (now : Nat) :
    AgentStatus :=
  { agent_id := cfg.agent_id
    name := cfg.name
    status := .idle
    tasks_completed := 0
    tasks_failed := 0
    last_activity := some now
    metadata := [("description", cfg.description),
                 ("workspace", cfg_workspace s cfg),
                 ("tools", renderStrList cfg.tools),
                 ("sandbox", cfg_sandbox cfg)] }

/-- The fresh `AgentStatus` stored on the local-only fallback when the create
endpoint is missing (lines 242–256). -/
def created_status_local (cfg : AgentConfig) (now : Nat) : AgentStatus :=
  { agent_id := cfg.agent_id
    name := cfg.name
    status := .idle
    tasks_completed := 0
    tasks_failed := 0
    last_activity := some now
    metadata := [("description", cfg.description),
                 ("workspace", (AList.find? cfg.config "workspace").getD ""),
                 ("tools", renderStrList cfg.tools)] }

/-- `create_agent` (lines 189–259). `o` is the outcome of the awaited
`POST /api/agents/create`. A 2xx response stores a fresh local record; any
other response raises `RuntimeError` (uncaught — the surrounding `try` only
handles `httpx.HTTPStatusError`); a 404 `HTTPStatusError` falls back to
local-only creation; other `HTTPStatusError`s are re-raised; any other
exception propagates. -/
def create_agent (s : OpenClawState) (cfg : AgentConfig) (o : HttpOutcome Unit)
    (now : Nat) : OpenClawState × Except PyErr AgentStatus :=
  match o with
  | .resp code _ =>
    if code = 200 ∨ code = 201 then
      let st := created_status s cfg now
      ({ s with agents := s.agents.insert cfg.agent_id st }, .ok st)
    else
      (s, .error (.runtimeError "Failed to create agent"))
  | .statusError code =>
    if code = 404 then
      let st := created_status_local cfg now
      ({ s with agents := s.agents.insert cfg.agent_id st }, .ok st)
    else
      (s, .error (.httpStatusError code))
  | .exn m => (s, .error (.otherError m))

/-- The three default `AgentConfig`s of `_create_default_agents`
(lines 128–165). -/
def default_agent_configs (s : OpenClawState) : List AgentConfig :=
  [ { agent_id := "main", name := "Main Agent"
      description := "Primary agent for general tasks"
      provider := "openclaw"
      tools := ["read", "write", "exec"]
      model := some s.default_model
      config := [("workspace", s.workspace_path ++ "/main"),
                 ("sandbox", renderPayload [("mode", "off")])] },
    { agent_id := "planning", name := "Planning Agent"
      description := "Task planning and decomposition"
      provider := "openclaw"
      tools := ["read"]
      model := some s.default_model
      config := [("workspace", s.workspace_path ++ "/planning"),
                 ("sandbox", renderPayload [("mode", "all"), ("scope", "agent")])] },
    { agent_id := "execution", name := "Execution Agent"
      description := "Task execution and reporting"
      provider := "openclaw"
      tools := ["read", "write", "exec"]
      model := some s.default_model
      config := [("workspace", s.workspace_path ++ "/execution"),
                 ("sandbox", renderPayload [("mode", "all"), ("scope", "agent")])] } ]

/-- `_create_default_agents` (lines 126–172): each creation is attempted with
its own request outcome `ho i`; a failure is logged and skipped
(`except Exception`), leaving the state of that iteration unchanged. -/
def create_default_agents (s : OpenClawState) (ho : Nat → HttpOutcome Unit)
    (now : Nat) : OpenClawState :=
  ((default_agent_configs s).enum).foldl
    (fun st p => (create_agent st p.2 (ho p.1) now).1) s

/-- `_sync_agents` (lines 84–124). `o` is the outcome of
`GET /api/agents/list`; `ho` supplies outcomes for the default-agent
creations of the fallback path. On a 200 response the reported agents are
merged in (overwriting, never pruning); if the local map is empty afterwards
the defaults are created; a 404 `HTTPStatusError` also falls back to the
defaults; other `HTTPStatusError`s are re-raised; other exceptions
propagate. -/
def sync_agents (s : OpenClawState) (o : HttpOutcome (List RemoteAgent))
    (ho : Nat → HttpOutcome Unit) (now : Nat) :
    OpenClawState × Except PyErr Unit :=
  match o with
  | .resp code body =>
    let s1 := if code = 200 then
        { s with agents := merge_remote_agents s.agents body now }
      else s
    if s1.agents.isEmpty then (create_default_agents s1 ho now, .ok ())
    else (s1, .ok ())
  | .statusError code =>
    if code = 404 then (create_default_agents s ho now, .ok ())
    else (s, .error (.httpStatusError code))
  | .exn m => (s, .error (.otherError m))

/-- `list_agents` (lines 174–177): resync, then snapshot. -/
def list_agents (s : OpenClawState) (o : HttpOutcome (List RemoteAgent))
    (ho : Nat → HttpOutcome Unit) (now : Nat) :
    OpenClawState × Except PyErr (List AgentStatus) :=
  match sync_agents s o ho now with
  | (s', .ok _) => (s', .ok s'.agents.values)
  | (s', .error e) => (s', .error e)

/-- `get_agent_status` (lines 179–187): resync only when locally unknown,
then `ValueError` if still unknown. -/
def get_agent_status (s : OpenClawState) (aid : String)
    (o : HttpOutcome (List RemoteAgent)) (ho : Nat → HttpOutcome Unit)
    (now : Nat) : OpenClawState × Except PyErr AgentStatus :=
  match s.agents.find? aid with
  | some a => (s, .ok a)
  | none =>
    match sync_agents s o ho now with
    | (s', .ok _) =>
      match s'.agents.find? aid with
      | some a => (s', .ok a)
      | none => (s', .error (.valueError ("Agent " ++ aid ++ " not found")))
    | (s', .error e) => (s', .error e)

/-- `delete_agent` (lines 261–280). `o` is the outcome of the awaited
`DELETE /api/agents/\x7bagent_id\x7d`. Only a 200/204 response (or a 404
`HTTPStatusError`) cleans up the local entry; any other response returns
`False` leaving local state intact; a non-404 `HTTPStatusError` is re-raised
and any other exception propagates uncaught. -/
def delete_agent (s : OpenClawState) (aid : String) (o : HttpOutcome Unit) :
    OpenClawState × Except PyErr Bool :=
  match o with
  | .resp code _ =>
    if code = 200 ∨ code = 204 then
      (if s.agents.contains aid then { s with agents := s.agents.erase aid }
       else s, .ok true)
    else
      (s, .ok false)
  | .statusError code =>
    if code = 404 then
      if s.agents.contains aid then
        ({ s with agents := s.agents.erase aid }, .ok true)
      else (s, .ok false)
    else (s, .error (.httpStatusError code))
  | .exn m => (s, .error (.otherError m))

/-- `submit_task` (lines 282–320): resolve the task id, auto-route to the
first idle agent or fall back to `"main"`, register the `queued` status and
spawn `_execute_openclaw_task`. -/
def submit_task (s : OpenClawState) (req : TaskRequest) (genId : String)
    (now : Nat) : OpenClawState × TaskStatus :=
  let tid :=
    match req.task_id with
    | none => genId
    | some t => if t = "" then genId else t
  let aid : String :=
    if strTruthy req.agent_id then
      req.agent_id.getD ""
    else
      match (s.agents.values.filter (fun a => a.status == .idle)).head? with
      | some a => a.agent_id
      | none => "main"
  let ts : TaskStatus :=
    { task_id := tid
      agent_id := some aid
      status := .queued
      priority := req.priority
      created_at := now
      metadata := AList.insert
        (AList.insert req.metadata "description" req.description)
        "input_data" (renderPayload req.input_data) }
  ({ s with
      tasks := s.tasks.insert tid ts
      execs := s.execs.insert tid (req, aid, ExecPhase.notStarted) },
   ts)

/-- First half of `_execute_openclaw_task` (lines 322–342), up to the awaited
`POST /api/messages/send`: unconditionally (no terminal-state guard) flips
the task to `running` and the agent (when known) to `busy`. -/
def execute_task_begin (s : OpenClawState) (tid aid : String) (now : Nat) :
    OpenClawState :=
  match s.tasks.find? tid with
  | none => s
  | some t =>
    let s1 := { s with
      tasks := s.tasks.insert tid
        { t with status := .running, started_at := some now } }
    if s1.agents.contains aid then
      { s1 with agents := s1.agents.modify aid (fun a =>
          { a with status := .busy, current_task := some tid }) }
    else s1

/-- Second half of `_execute_openclaw_task` (lines 344–378). A 200 response
(body: the extracted `response` text and `data` mapping) completes the task
and bumps `tasks_completed`; any other response raises `RuntimeError`, which
— like every other exception — the `except Exception` arm turns into
`status="failed"` with the error captured and `tasks_failed` bumped; the
`finally` arm always parks the agent back to `idle`. -/
def execute_task_finish (s : OpenClawState) (tid aid : String)
    (o : HttpOutcome (String × Payload)) (now : Nat) : OpenClawState :=
  match s.tasks.find? tid with
  | none => s
  | some t =>
    let s1 :=
      match o with
      | .resp 200 body =>
        let s' := { s with
          tasks := s.tasks.insert tid
            { t with status := .completed, completed_at := some now,
                     result := some body } }
        if s'.agents.contains aid then
          { s' with agents := s'.agents.modify aid (fun a =>
              { a with tasks_completed := a.tasks_completed + 1 }) }
        else s'
      | _ =>
        let msg :=
          match o with
          | .resp _ _ => "Task execution failed"
          | .statusError code => "HTTPStatusError " ++ toString code
          | .exn m => m
        let s' := { s with
          tasks := s.tasks.insert tid
            { t with status := .failed, completed_at := some now,
                     error := some msg } }
        if s'.agents.contains aid then
          { s' with agents := s'.agents.modify aid (fun a =>
              { a with tasks_failed := a.tasks_failed + 1 }) }
        else s'
    if s1.agents.contains aid then
      { s1 with agents := s1.agents.modify aid (fun a =>
          { a with status := .idle, current_task := none,
                   last_activity := some now }) }
    else s1

/-- `get_task_status` (lines 380–384). -/
def get_task_status (s : OpenClawState) (tid : String) :
    Except PyErr TaskStatus :=
  match s.tasks.find? tid with
  | none => .error (.valueError ("Task " ++ tid ++ " not found"))
  | some t => .ok t

/-- `cancel_task` (lines 386–394): a `queued`/`running` task becomes
`cancelled` with `completed_at` stamped; anything else reports `False` with
no change. -/
def cancel_task (s : OpenClawState) (tid : String) (now : Nat) :
    OpenClawState × Bool :=
  match s.tasks.find? tid with
  | none => (s, false)
  | some t =>
    if t.status = .queued ∨ t.status = .running then
      let t' := { t with status := TaskState.cancelled, completed_at := some now }
      ({ s with tasks := s.tasks.insert tid t' }, true)
    else
      (s, false)

/-- `list_tasks` (lines 396–414): truthy filters, newest-first stable sort,
truncate. -/
def list_tasks (s : OpenClawState) (aid : Option String)
    (status : Option TaskState) (limit : Nat) : List TaskStatus :=
  let tasks : List TaskStatus := s.tasks.values
  let tasks : List TaskStatus :=
    if strTruthy aid then tasks.filter (fun t => t.agent_id == aid) else tasks
  let tasks : List TaskStatus :=
    match status with
    | some st => tasks.filter (fun t => t.status == st)
    | none => tasks
  (tasks.mergeSort (fun a b => decide (a.created_at ≥ b.created_at))).take limit

/-- `get_system_metrics` (lines 416–451): identical aggregation to the
in-memory provider, tagged `"openclaw"`. -/
def get_system_metrics (s : OpenClawState) (uptime : Nat) : SystemMetrics :=
  let agents := s.agents.values
  let tasks := s.tasks.values
  let completed := tasks.filter (fun t =>
    t.status == .completed && t.started_at.isSome && t.completed_at.isSome)
  let avg : ℚ :=
    if completed.length = 0 then 0
    else (completed.map (fun t => (MockAgentProvider.durationSec t : ℚ))).sum /
      (completed.length : ℚ)
  { total_agents := agents.length
    active_agents := agents.countP (fun a => a.status == .idle || a.status == .busy)
    idle_agents := agents.countP (fun a => a.status == .idle)
    busy_agents := agents.countP (fun a => a.status == .busy)
    error_agents := agents.countP (fun a => a.status == .error)
    total_tasks_queued := tasks.countP (fun t => t.status == .queued)
    total_tasks_running := tasks.countP (fun t => t.status == .running)
    total_tasks_completed := tasks.countP (fun t => t.status == .completed)
    total_tasks_failed := tasks.countP (fun t => t.status == .failed)
    average_task_time_seconds := avg
    provider := "openclaw"
    uptime_seconds := uptime }

end OpenClawProvider

/-! ## Orchestration service (`agent_service.py`, class `AgentService`)

The singleton's class attributes `_instance` / `_provider` are the state. The
held provider is abstracted to its identity and readiness: the service reads
nothing else from it, and whether `await instance._provider.initialize()`
raises is supplied as an oracle (the in-memory provider's `initialize` cannot
raise; the gateway provider's raises exactly when its health probe fails). -/

/-- Which concrete provider class was constructed by the factory. -/
inductive ProviderKind
  | mock | openclaw
  deriving DecidableEq, Repr

/-- The provider object as far as the service observes it. -/
structure ProviderBox where
  kind : ProviderKind
  ready : Bool  -- its `_initialized` flag
  deriving DecidableEq, Repr

/-- Class-level state of `AgentService`: `_instance is None` collapses to
`instance_exists`, `_provider` to `provider`. -/
structure ServiceState where
  instance_exists : Bool
  provider : Option ProviderBox
  deriving DecidableEq, Repr

namespace AgentService

/-- Pristine interpreter state: no singleton constructed yet. -/
def fresh : ServiceState :=
  { instance_exists := false, provider := none }

/-- `initialize` (lines 33–75; Lean keyword, hence `init`). Steps in source
order: construct/fetch the singleton; if a provider is already referenced,
shut it down (the reference is *not* cleared); dispatch on `provider_type`
(unknown and placeholder types raise, leaving whatever reference was there);
assign the freshly constructed provider into `_provider`; finally await its
`initialize()`, whose failure (`initRaises`) propagates — with the fresh,
never-readied provider still referenced. -/
def init (s : ServiceState) (provider_type : String) (initRaises : Bool) :
    ServiceState × Except PyErr Unit :=
  let s1 : ServiceState := { s with instance_exists := true }
  let s2 : ServiceState :=
    match s1.provider with
    | some p => { s1 with provider := some { p with ready := false } }
    | none => s1
  if provider_type = "mock" then
    let s3 : ServiceState := { s2 with provider := some ⟨.mock, false⟩ }
    if initRaises then (s3, .error (.otherError "provider initialize raised"))
    else ({ s2 with provider := some ⟨.mock, true⟩ }, .ok ())
  else if provider_type = "openclaw" then
    let s3 : ServiceState := { s2 with provider := some ⟨.openclaw, false⟩ }
    if initRaises then (s3, .error (.otherError "provider initialize raised"))
    else ({ s2 with provider := some ⟨.openclaw, true⟩ }, .ok ())
  else if provider_type = "langgraph" then
    (s2, .error (.notImplementedError "LangGraph provider not yet implemented"))
  else if provider_type = "crewai" then
    (s2, .error (.notImplementedError "CrewAI provider not yet implemented"))
  else
    (s2, .error (.valueError ("Unknown provider type: " ++ provider_type)))

/-- `get_instance` (lines 77–82): `RuntimeError` when the singleton was never
constructed or no provider is referenced. -/
def get_instance (s : ServiceState) : Except PyErr Unit :=
  if s.instance_exists = false ∨ s.provider = none then
    .error (.runtimeError "AgentService not initialized. Call initialize() first.")
  else
    .ok ()

/-- Instance method `shutdown` (lines 91–96): tear down and clear the
reference (this one *does* null it). -/
def shutdown_service (s : ServiceState) : ServiceState :=
  { s with provider := none }

end AgentService

/-! ## Spec-side definitions

Definitions in this section follow the wording of the specification (not the
code); theorems compare the embedded code against them. -/

/-- Spec §4.1 `submit_task`: "pick the first agent currently `idle` in
internal roster order" — first-match scan of the roster snapshot. -/
def firstIdleSpec : List AgentStatus → Option AgentStatus
  | [] => none
  | a :: rest => if a.status = .idle then some a else firstIdleSpec rest

/-- Arithmetic mean of a list, 0 when empty (spec §3: "0 if no such tasks
exist"). -/
def meanOrZero (l : List ℚ) : ℚ :=
  if l.length = 0 then 0 else l.sum / (l.length : ℚ)

/-- Claim C5's reading of the metrics average: durations of exactly the
tasks with both timestamps set, regardless of status. -/
def stampedDurations (tasks : List TaskStatus) : List ℚ :=
  (tasks.filter (fun t => t.started_at.isSome && t.completed_at.isSome)).map
    (fun t => (MockAgentProvider.durationSec t : ℚ))

/-- Claim C5's described value: mean of `completed_at - started_at` over the
tasks with both timestamps set (status-blind). -/
def claimAverageTaskTime (tasks : List TaskStatus) : ℚ :=
  meanOrZero (stampedDurations tasks)

/-- Durations of the tasks with status `completed` *and* both timestamps set
— what the code actually averages. -/
def completedStampedDurations (tasks : List TaskStatus) : List ℚ :=
  (tasks.filter (fun t =>
    t.status == .completed && t.started_at.isSome && t.completed_at.isSome)).map
    (fun t => (MockAgentProvider.durationSec t : ℚ))

/-- The average the code computes, spec-side phrasing: mean over the
completed tasks with both timestamps. -/
def completedAverageTaskTime (tasks : List TaskStatus) : ℚ :=
  meanOrZero (completedStampedDurations tasks)

/-- "No stored task is `failed`" — the C8 invariant. -/
def NoFailedTasks (s : MockState) : Prop :=
  ∀ p ∈ s.tasks, p.2.status ≠ TaskState.failed

/-! ## Concrete states used by counterexamples and witnesses -/

/-- A single idle agent. -/
def idleAgentA : AgentStatus :=
  { agent_id := "a1", name := "A", status := .idle }

/-- A second agent, busy. -/
def busyAgentB : AgentStatus :=
  { agent_id := "b1", name := "B", status := .busy }

/-- A queued task bound to `"a1"`, no timestamps beyond creation. -/
def queuedTask1 : TaskStatus :=
  { task_id := "t1", agent_id := some "a1", status := .queued, created_at := 0 }

/-- Mock provider holding exactly `queuedTask1`. -/
def mockWithQueued : MockState :=
  { agents := [], tasks := [("t1", queuedTask1)], execs := [], initialized := true }

/-- A failed task with both timestamps set (duration 5). -/
def failedStampedTask : TaskStatus :=
  { task_id := "t1", status := .failed, created_at := 0,
    started_at := some 0, completed_at := some 5, error := some "boom" }

/-- Mock provider holding exactly `failedStampedTask`. -/
def mockWithFailedStamped : MockState :=
  { agents := [], tasks := [("t1", failedStampedTask)], execs := [],
    initialized := true }

/-- The C1 schedule: one idle agent, a task auto-routed to it, its
execution unit begun, the task cancelled during the simulated delay, and the
unit resumed. -/
def c1req : TaskRequest := { description := "x" }

/-- Initial state of the C1 schedule. -/
def c1s0 : MockState :=
  { agents := [("a1", idleAgentA)], tasks := [], execs := [], initialized := true }

/-- After `submit_task` (no agent binding supplied: auto-routes to `"a1"`). -/
def c1s1 : MockState := (MockAgentProvider.submit_task c1s0 c1req "t1" 10).1

/-- After the execution unit's first half: task running, agent busy, unit
suspended in the simulated delay. -/
def c1s2 : MockState := MockAgentProvider.exec_begin_step c1s1 "t1" 11

/-- After `cancel_task` during the delay: task `cancelled`. -/
def c1s3 : MockState := (MockAgentProvider.cancel_task c1s2 "t1").1

/-- After the unit resumes: the terminal `cancelled` is overwritten. -/
def c1s4 : MockState := MockAgentProvider.exec_finish_step c1s3 "t1" c1req 12

/-- OpenClaw provider state with the constructor's default configuration. -/
def ocBase : OpenClawState :=
  OpenClawProvider.init_state "http://localhost:18789" "~/.openclaw/workspace"
    "claude-3-5-sonnet-20241022"

/-- A local agent with progress recorded: 5 completed, 2 failed. -/
def veteranAgentA : AgentStatus :=
  { agent_id := "a", name := "A", status := .idle,
    tasks_completed := 5, tasks_failed := 2 }

/-- A second local agent not reported by the gateway. -/
def localOnlyAgentB : AgentStatus :=
  { agent_id := "b", name := "B", status := .idle }

/-- OpenClaw provider holding the two local agents above. -/
def ocTwoAgents : OpenClawState :=
  { ocBase with agents := [("a", veteranAgentA), ("b", localOnlyAgentB)],
                initialized := true }

/-- Gateway roster reporting only agent `"a"`. -/
def remoteOnlyA : List RemoteAgent := [{ id := "a", name := some "A" }]

/-- Default-creation oracle never consulted on the counterexample path. -/
def hoOk : Nat → HttpOutcome Unit := fun _ => .resp 200 ()

/-- OpenClaw provider holding exactly `queuedTask1`. -/
def ocWithQueued : OpenClawState :=
  { ocBase with tasks := [("t1", queuedTask1)], initialized := true }

/-- Mock provider whose roster starts with a busy agent followed by an idle
one (the idle agent is not first in roster order). -/
def mockTwoAgents : MockState :=
  { agents := [("b1", busyAgentB), ("a1", idleAgentA)], tasks := [],
    execs := [], initialized := true }

/-- OpenClaw provider with no idle agent in the roster. -/
def ocNoIdle : OpenClawState :=
  { ocBase with agents := [("b1", busyAgentB)], initialized := true }

/-- OpenClaw provider holding one agent `"a"`. -/
def ocOneAgent : OpenClawState :=
  { ocBase with agents := [("a", veteranAgentA)], initialized := true }

/-- A plain task request with no bindings. -/
def plainReq : TaskRequest := { description := "y" }

/-- A config whose id collides with the existing mock agent `"a1"`. -/
def dupCfgMock : AgentConfig :=
  { agent_id := "a1", name := "A2", description := "replacement",
    provider := "mock" }

/-- A config whose id collides with the existing OpenClaw agent `"a"`. -/
def dupCfgOc : AgentConfig :=
  { agent_id := "a", name := "A2", description := "replacement",
    provider := "openclaw" }

/-- A queued task with no agent binding (submitted when nothing was idle). -/
def unboundTask : TaskStatus :=
  { task_id := "t2", agent_id := none, status := .queued, created_at := 0 }

/-- Mock provider holding the unbound queued task and its not-yet-run
execution unit. -/
def mockUnbound : MockState :=
  { agents := [("a1", idleAgentA)], tasks := [("t2", unboundTask)],
    execs := [("t2", (plainReq, ExecPhase.notStarted))], initialized := true }

/-- A queued task bound to an agent id that is absent from the roster. -/
def ghostTask : TaskStatus :=
  { task_id := "tg", agent_id := some "ghost", status := .queued,
    created_at := 0 }

/-- Mock provider holding the ghost-bound queued task and its not-yet-run
execution unit (the bound agent `"ghost"` is not in the roster). -/
def mockGhost : MockState :=
  { agents := [("a1", idleAgentA)], tasks := [("tg", ghostTask)],
    execs := [("tg", (plainReq, ExecPhase.notStarted))], initialized := true }

/-- A config creating the previously-missing agent `"ghost"` after the
task's execution unit has already run and ended. -/
def ghostCfg : AgentConfig :=
  { agent_id := "ghost", name := "Ghost", description := "late arrival",
    provider := "mock" }

/-- A cancelled task still bound to agent `"a1"`. -/
def cancelledTask : TaskStatus :=
  { task_id := "t1", agent_id := some "a1", status := .cancelled,
    created_at := 0 }

/-- Mock provider holding the cancelled task (its execution unit still
asleep). -/
def mockWithCancelled : MockState :=
  { agents := [("a1", idleAgentA)], tasks := [("t1", cancelledTask)],
    execs := [("t1", (plainReq, ExecPhase.sleeping))], initialized := true }

/-! ## Infrastructure lemmas on the in-memory provider's transitions -/

namespace MockAgentProvider

theorem create_agent_tasks (s : MockState) (cfg : AgentConfig) (now : Nat) :
    (create_agent s cfg now).1.tasks = s.tasks := rfl

theorem create_agent_execs (s : MockState) (cfg : AgentConfig) (now : Nat) :
    (create_agent s cfg now).1.execs = s.execs := rfl

theorem delete_agent_tasks (s : MockState) (aid : String) :
    (delete_agent s aid).1.tasks = s.tasks := by
  unfold delete_agent; split <;> rfl

theorem delete_agent_execs (s : MockState) (aid : String) :
    (delete_agent s aid).1.execs = s.execs := by
  unfold delete_agent; split <;> rfl

theorem init_tasks (s : MockState) (now : Nat) :
    (init s now).tasks = s.tasks := rfl

theorem init_execs (s : MockState) (now : Nat) :
    (init s now).execs = s.execs := rfl

theorem shutdown_tasks (s : MockState) : (shutdown s).tasks = [] := rfl

theorem submit_task_fst (s : MockState) (req : TaskRequest) (genId : String)
    (now : Nat) :
    (submit_task s req genId now).1 =
      { s with
          tasks := s.tasks.insert (resolve_task_id req genId)
            (submitted_task s req genId now)
          execs := s.execs.insert (resolve_task_id req genId)
            (req, ExecPhase.notStarted) } := rfl

theorem submit_task_snd (s : MockState) (req : TaskRequest) (genId : String)
    (now : Nat) :
    (submit_task s req genId now).2 = submitted_task s req genId now := rfl

theorem submitted_task_status (s : MockState) (req : TaskRequest)
    (genId : String) (now : Nat) :
    (submitted_task s req genId now).status = .queued := rfl

theorem cancel_task_of_none {s : MockState} {tid : String}
    (h : s.tasks.find? tid = none) : cancel_task s tid = (s, false) := by
  unfold cancel_task; rw [h]

theorem cancel_task_of_terminal {s : MockState} {tid : String} {t : TaskStatus}
    (h : s.tasks.find? tid = some t)
    (ht : ¬(t.status = .queued ∨ t.status = .running)) :
    cancel_task s tid = (s, false) := by
  unfold cancel_task; rw [h]; simp only [ht, if_neg, not_false_iff]

theorem cancel_task_of_active {s : MockState} {tid : String} {t : TaskStatus}
    (h : s.tasks.find? tid = some t)
    (ht : t.status = .queued ∨ t.status = .running) :
    cancel_task s tid =
      ({ s with tasks := s.tasks.insert tid { t with status := .cancelled } },
       true) := by
  unfold cancel_task; rw [h]; simp only [ht, if_pos]

theorem execute_task_begin_of_none {s : MockState} {tid : String} (now : Nat)
    (h : s.tasks.find? tid = none) :
    execute_task_begin s tid now = (s, false) := by
  unfold execute_task_begin; rw [h]

theorem execute_task_begin_of_guard_fail {s : MockState} {tid : String}
    {t : TaskStatus} (now : Nat) (h : s.tasks.find? tid = some t)
    (hg : ∀ aid, t.agent_id = some aid →
      aid = "" ∨ s.agents.contains aid = false) :
    execute_task_begin s tid now = (s, false) := by
  unfold execute_task_begin
  simp only [h]
  cases ha : t.agent_id with
  | none => rfl
  | some aid =>
    rcases hg aid ha with he | hc
    · simp [he]
    · by_cases he : aid = ""
      · simp [he]
      · simp [he, hc]

theorem execute_task_begin_of_ok {s : MockState} {tid : String}
    {t : TaskStatus} {aid : String} (now : Nat)
    (h : s.tasks.find? tid = some t) (ha : t.agent_id = some aid)
    (hne : ¬ (aid = "")) (hc : s.agents.contains aid = true) :
    execute_task_begin s tid now =
      ({ s with
          agents := s.agents.modify aid (fun a =>
            { a with status := .busy, current_task := some tid,
                     last_activity := some now })
          tasks := s.tasks.insert tid
            { t with status := .running, started_at := some now } },
       true) := by
  unfold execute_task_begin
  simp only [h, ha]
  simp [hne, hc]

/-- The begin half touches `tasks` only at `tid` (it either leaves the map
alone or re-inserts `tid`). -/
theorem execute_task_begin_tasks_cases (s : MockState) (tid : String)
    (now : Nat) :
    (execute_task_begin s tid now).1.tasks = s.tasks ∨
    ∃ t, s.tasks.find? tid = some t ∧
      (execute_task_begin s tid now).1.tasks =
        s.tasks.insert tid { t with status := .running, started_at := some now } := by
  cases h : s.tasks.find? tid with
  | none => left; rw [execute_task_begin_of_none now h]
  | some t =>
    cases ha : t.agent_id with
    | none =>
      left
      rw [execute_task_begin_of_guard_fail now h (fun a haa => by
        rw [ha] at haa; exact absurd haa (by simp))]
    | some aid =>
      by_cases he : aid = ""
      · left
        rw [execute_task_begin_of_guard_fail now h (fun a haa => by
          rw [ha] at haa; injection haa with hh; subst hh; exact Or.inl he)]
      · cases hc : s.agents.contains aid with
        | true =>
          right
          exact ⟨t, rfl, by rw [execute_task_begin_of_ok now h ha he hc]⟩
        | false =>
          left
          rw [execute_task_begin_of_guard_fail now h (fun a haa => by
            rw [ha] at haa; injection haa with hh; subst hh; exact Or.inr hc)]

theorem exec_begin_step_tasks (s : MockState) (tid : String) (now : Nat) :
    (exec_begin_step s tid now).tasks = (execute_task_begin s tid now).1.tasks := by
  unfold exec_begin_step
  by_cases hb : (execute_task_begin s tid now).2 = true
  · simp [hb]
  · simp [hb]

theorem exec_begin_step_tasks_find_ne {s : MockState} {tid k : String}
    (now : Nat) (hk : k ≠ tid) :
    (exec_begin_step s tid now).tasks.find? k = s.tasks.find? k := by
  rw [exec_begin_step_tasks]
  rcases execute_task_begin_tasks_cases s tid now with h | ⟨t, _, h⟩
  · rw [h]
  · rw [h, AList.find?_insert_ne _ _ hk]

theorem execute_task_finish_of_none {s : MockState} {tid : String}
    (req : TaskRequest) (now : Nat) (h : s.tasks.find? tid = none) :
    execute_task_finish s tid req now = s := by
  unfold execute_task_finish; rw [h]

theorem execute_task_finish_tasks_of_some {s : MockState} {tid : String}
    {t : TaskStatus} (req : TaskRequest) (now : Nat)
    (h : s.tasks.find? tid = some t) :
    (execute_task_finish s tid req now).tasks =
      s.tasks.insert tid
        { t with status := .completed, completed_at := some now,
                 result := some ("Task " ++ tid ++ " completed successfully",
                                 req.input_data) } := by
  unfold execute_task_finish
  simp only [h]
  cases t.agent_id <;> rfl

theorem exec_finish_step_tasks (s : MockState) (tid : String)
    (req : TaskRequest) (now : Nat) :
    (exec_finish_step s tid req now).tasks =
      (execute_task_finish s tid req now).tasks := rfl

theorem exec_finish_step_tasks_find_ne {s : MockState} {tid k : String}
    (req : TaskRequest) (now : Nat) (hk : k ≠ tid) :
    (exec_finish_step s tid req now).tasks.find? k = s.tasks.find? k := by
  rw [exec_finish_step_tasks]
  cases h : s.tasks.find? tid with
  | none => rw [execute_task_finish_of_none req now h]
  | some t =>
    rw [execute_task_finish_tasks_of_some req now h,
      AList.find?_insert_ne _ _ hk]

/-- Full case split of the begin half: either nothing happened (guard
failed), or the task/agent pair was flipped to running/busy. -/
theorem execute_task_begin_cases (s : MockState) (tid : String) (now : Nat) :
    execute_task_begin s tid now = (s, false) ∨
    ∃ t aid, s.tasks.find? tid = some t ∧ t.agent_id = some aid ∧
      execute_task_begin s tid now =
        ({ s with
            agents := s.agents.modify aid (fun a =>
              { a with status := .busy, current_task := some tid,
                       last_activity := some now })
            tasks := s.tasks.insert tid
              { t with status := .running, started_at := some now } },
         true) := by
  cases h : s.tasks.find? tid with
  | none => left; exact execute_task_begin_of_none now h
  | some t =>
    cases ha : t.agent_id with
    | none =>
      left
      exact execute_task_begin_of_guard_fail now h (fun a haa => by
        rw [ha] at haa; exact absurd haa (by simp))
    | some aid =>
      by_cases he : aid = ""
      · left
        exact execute_task_begin_of_guard_fail now h (fun a haa => by
          rw [ha] at haa; injection haa with hh; subst hh; exact Or.inl he)
      · cases hc : s.agents.contains aid with
        | false =>
          left
          exact execute_task_begin_of_guard_fail now h (fun a haa => by
            rw [ha] at haa; injection haa with hh; subst hh; exact Or.inr hc)
        | true =>
          right
          exact ⟨t, aid, rfl, ha, execute_task_begin_of_ok now h ha he hc⟩

theorem execute_task_begin_execs (s : MockState) (tid : String) (now : Nat) :
    (execute_task_begin s tid now).1.execs = s.execs := by
  rcases execute_task_begin_cases s tid now with h | ⟨t, aid, _, _, h⟩ <;> rw [h]

theorem exec_begin_step_execs_find_ne {s : MockState} {tid k : String}
    (now : Nat) (hk : k ≠ tid) :
    (exec_begin_step s tid now).execs.find? k = s.execs.find? k := by
  unfold exec_begin_step
  by_cases hb : (execute_task_begin s tid now).2 = true
  · simp only [hb, if_true]
    rw [AList.find?_modify_ne _ _ hk, execute_task_begin_execs]
  · simp only [hb, Bool.false_eq_true, if_false]
    rw [AList.find?_erase_ne _ hk, execute_task_begin_execs]

theorem execute_task_finish_execs {s : MockState} {tid : String}
    (req : TaskRequest) (now : Nat) :
    (execute_task_finish s tid req now).execs = s.execs := by
  cases h : s.tasks.find? tid with
  | none => rw [execute_task_finish_of_none req now h]
  | some t =>
    unfold execute_task_finish
    simp only [h]
    cases t.agent_id <;> rfl

theorem exec_finish_step_execs {s : MockState} {tid : String}
    (req : TaskRequest) (now : Nat) :
    (exec_finish_step s tid req now).execs =
      (execute_task_finish s tid req now).execs.erase tid := rfl

theorem exec_finish_step_execs_find_ne {s : MockState} {tid k : String}
    (req : TaskRequest) (now : Nat) (hk : k ≠ tid) :
    (exec_finish_step s tid req now).execs.find? k = s.execs.find? k := by
  rw [exec_finish_step_execs, AList.find?_erase_ne _ hk,
    execute_task_finish_execs req now]

theorem cancel_task_agents (s : MockState) (tid : String) :
    (cancel_task s tid).1.agents = s.agents := by
  cases h : s.tasks.find? tid with
  | none => rw [cancel_task_of_none h]
  | some t =>
    by_cases ht : t.status = .queued ∨ t.status = .running
    · rw [cancel_task_of_active h ht]
    · rw [cancel_task_of_terminal h ht]

theorem cancel_task_execs (s : MockState) (tid : String) :
    (cancel_task s tid).1.execs = s.execs := by
  cases h : s.tasks.find? tid with
  | none => rw [cancel_task_of_none h]
  | some t =>
    by_cases ht : t.status = .queued ∨ t.status = .running
    · rw [cancel_task_of_active h ht]
    · rw [cancel_task_of_terminal h ht]

theorem cancel_task_tasks_find_ne {s : MockState} {tid k : String}
    (hk : k ≠ tid) :
    (cancel_task s tid).1.tasks.find? k = s.tasks.find? k := by
  cases h : s.tasks.find? tid with
  | none => rw [cancel_task_of_none h]
  | some t =>
    by_cases ht : t.status = .queued ∨ t.status = .running
    · rw [cancel_task_of_active h ht]
      exact AList.find?_insert_ne _ _ hk
    · rw [cancel_task_of_terminal h ht]

theorem shutdown_execs (s : MockState) : (shutdown s).execs = s.execs := rfl

/-- When the guard fails, the scheduler step only discards the unit. -/
theorem exec_begin_step_of_fail {s : MockState} {tid : String} {now : Nat}
    (h : execute_task_begin s tid now = (s, false)) :
    exec_begin_step s tid now = { s with execs := s.execs.erase tid } := by
  unfold exec_begin_step
  rw [h]
  simp

end MockAgentProvider

namespace OpenClawProvider

theorem oc_cancel_task_of_none {s : OpenClawState} {tid : String} (now : Nat)
    (h : s.tasks.find? tid = none) : cancel_task s tid now = (s, false) := by
  unfold cancel_task; rw [h]

theorem oc_cancel_task_of_terminal {s : OpenClawState} {tid : String}
    {t : TaskStatus} (now : Nat) (h : s.tasks.find? tid = some t)
    (ht : ¬(t.status = .queued ∨ t.status = .running)) :
    cancel_task s tid now = (s, false) := by
  unfold cancel_task; simp only [h]; simp only [ht, if_neg, not_false_iff]

theorem oc_cancel_task_of_active {s : OpenClawState} {tid : String}
    {t : TaskStatus} (now : Nat) (h : s.tasks.find? tid = some t)
    (ht : t.status = .queued ∨ t.status = .running) :
    cancel_task s tid now =
      ({ s with tasks := s.tasks.insert tid { t with status := .cancelled, completed_at := some now } }, true) := by
  unfold cancel_task; simp only [h]; simp only [ht, if_pos]

theorem create_agent_resp_success {code : Nat} (s : OpenClawState)
    (cfg : AgentConfig) (b : Unit) (now : Nat)
    (hcode : code = 200 ∨ code = 201) :
    create_agent s cfg (.resp code b) now =
      ({ s with agents := s.agents.insert cfg.agent_id (created_status s cfg now) },
       .ok (created_status s cfg now)) := by
  simp [create_agent, hcode]

theorem create_agent_resp_failure {code : Nat} (s : OpenClawState)
    (cfg : AgentConfig) (b : Unit) (now : Nat)
    (hcode : ¬(code = 200 ∨ code = 201)) :
    create_agent s cfg (.resp code b) now =
      (s, .error (.runtimeError "Failed to create agent")) := by
  simp [create_agent, hcode]

theorem create_agent_status_404 (s : OpenClawState) (cfg : AgentConfig)
    (now : Nat) :
    create_agent s cfg (.statusError 404) now =
      ({ s with agents := s.agents.insert cfg.agent_id (created_status_local cfg now) },
       .ok (created_status_local cfg now)) := rfl

theorem create_agent_status_other {code : Nat} (s : OpenClawState)
    (cfg : AgentConfig) (now : Nat) (hcode : ¬(code = 404)) :
    create_agent s cfg (.statusError code) now =
      (s, .error (.httpStatusError code)) := by
  simp [create_agent, hcode]

theorem create_agent_exn (s : OpenClawState) (cfg : AgentConfig) (m : String)
    (now : Nat) :
    create_agent s cfg (.exn m) now = (s, .error (.otherError m)) := rfl

theorem created_status_fresh (s : OpenClawState) (cfg : AgentConfig) (now : Nat) :
    (created_status s cfg now).status = .idle ∧
    (created_status s cfg now).current_task = none ∧
    (created_status s cfg now).tasks_completed = 0 ∧
    (created_status s cfg now).tasks_failed = 0 := ⟨rfl, rfl, rfl, rfl⟩

theorem created_status_local_fresh (cfg : AgentConfig) (now : Nat) :
    (created_status_local cfg now).status = .idle ∧
    (created_status_local cfg now).current_task = none ∧
    (created_status_local cfg now).tasks_completed = 0 ∧
    (created_status_local cfg now).tasks_failed = 0 := ⟨rfl, rfl, rfl, rfl⟩

theorem delete_agent_resp_success {code : Nat} (s : OpenClawState)
    (aid : String) (b : Unit) (hcode : code = 200 ∨ code = 204) :
    delete_agent s aid (.resp code b) =
      (if s.agents.contains aid then { s with agents := s.agents.erase aid }
       else s, .ok true) := by
  simp [delete_agent, hcode]

theorem delete_agent_resp_failure {code : Nat} (s : OpenClawState)
    (aid : String) (b : Unit) (hcode : ¬(code = 200 ∨ code = 204)) :
    delete_agent s aid (.resp code b) = (s, .ok false) := by
  simp [delete_agent, hcode]

theorem delete_agent_status_404 (s : OpenClawState) (aid : String) :
    delete_agent s aid (.statusError 404) =
      (if s.agents.contains aid then ({ s with agents := s.agents.erase aid }, .ok true)
       else (s, .ok false)) := by
  unfold delete_agent
  by_cases hc : s.agents.contains aid = true
  · simp [hc]
  · simp [hc]

theorem delete_agent_status_other {code : Nat} (s : OpenClawState)
    (aid : String) (hcode : ¬(code = 404)) :
    delete_agent s aid (.statusError code) =
      (s, .error (.httpStatusError code)) := by
  simp [delete_agent, hcode]

theorem delete_agent_exn (s : OpenClawState) (aid : String) (m : String) :
    delete_agent s aid (.exn m) = (s, .error (.otherError m)) := rfl

/-- Keys not reported by the gateway are untouched by the merge loop —
in particular, never pruned. -/
theorem merge_remote_agents_find?_not_mem (agents : AList AgentStatus)
    (rs : List RemoteAgent) (now : Nat) {k : String}
    (hk : k ∉ rs.map RemoteAgent.id) :
    (merge_remote_agents agents rs now).find? k = agents.find? k := by
  induction rs generalizing agents with
  | nil => rfl
  | cons r rest ih =>
    simp only [List.map_cons, List.mem_cons, not_or] at hk
    obtain ⟨hk1, hk2⟩ := hk
    unfold merge_remote_agents
    simp only [List.foldl_cons]
    have h2 := ih (agents.insert r.id (remote_agent_status r now)) hk2
    unfold merge_remote_agents at h2
    rw [h2, AList.find?_insert_ne _ _ hk1]

/-- Every reported agent ends up bound to a *fresh* record (idle, zero
counters), regardless of what the local map held. -/
theorem merge_remote_agents_find?_mem (agents : AList AgentStatus)
    (rs : List RemoteAgent) (now : Nat)
    (hnd : (rs.map RemoteAgent.id).Nodup) {r : RemoteAgent} (hr : r ∈ rs) :
    (merge_remote_agents agents rs now).find? r.id =
      some (remote_agent_status r now) := by
  induction rs generalizing agents with
  | nil => simp at hr
  | cons r0 rest ih =>
    simp only [List.map_cons, List.nodup_cons] at hnd
    obtain ⟨hn0, hnrest⟩ := hnd
    rcases List.mem_cons.mp hr with rfl | hr'
    · unfold merge_remote_agents
      simp only [List.foldl_cons]
      have h1 := merge_remote_agents_find?_not_mem
        (agents.insert r.id (remote_agent_status r now)) rest now hn0
      unfold merge_remote_agents at h1
      rw [h1, AList.find?_insert_self]
    · unfold merge_remote_agents
      simp only [List.foldl_cons]
      have := ih (agents.insert r0.id (remote_agent_status r0 now)) hnrest hr'
      unfold merge_remote_agents at this
      exact this

end OpenClawProvider

/-! ## Infrastructure lemmas relating the implementations to the spec-side
definitions -/

theorem filter_idle_head_eq_firstIdleSpec (l : List AgentStatus) :
    (l.filter (fun a => a.status == .idle)).head? = firstIdleSpec l := by
  induction l with
  | nil => rfl
  | cons a rest ih =>
    by_cases h : a.status = .idle
    · simp [List.filter_cons, h, firstIdleSpec]
    · simp [List.filter_cons, h, firstIdleSpec, ih]

theorem firstIdleSpec_idle {l : List AgentStatus} {a0 : AgentStatus}
    (h : firstIdleSpec l = some a0) : a0.status = .idle := by
  induction l with
  | nil => simp [firstIdleSpec] at h
  | cons a rest ih =>
    by_cases ha : a.status = .idle
    · simp only [firstIdleSpec, ha, if_pos] at h
      injection h with hh
      rw [← hh]; exact ha
    · simp only [firstIdleSpec, ha, if_neg, not_false_iff] at h
      exact ih h

/-! ## Claim theorems -/

/-- C2 (counterexample): on the in-memory provider, cancelling the queued
task `"t1"` returns true and sets `cancelled`, but leaves `completed_at`
unset — refuting the claim that every provider's `cancel_task` "stamps its
completed_at". -/
theorem C2_cancel_counterexample :
    (MockAgentProvider.cancel_task mockWithQueued "t1").2 = true ∧
    ((MockAgentProvider.cancel_task mockWithQueued "t1").1.tasks.find? "t1").map
      TaskStatus.status = some TaskState.cancelled ∧
    ((MockAgentProvider.cancel_task mockWithQueued "t1").1.tasks.find? "t1").map
      TaskStatus.completed_at = some none := by
  refine ⟨?_, ?_, ?_⟩ <;> decide

/-- C2 (amended): for both providers, `cancel_task` returns true and flips
the status to `cancelled` exactly when the stored task is `queued` or
`running`, and returns false leaving the whole state unchanged when the id
is unknown or the task is terminal. On success the OpenClaw provider also
stamps `completed_at := now`, while the in-memory provider changes only the
status field (its `completed_at` keeps its previous value); other task
records, the agent map and the execution units are untouched. -/
theorem C2_cancel_amended :
    (∀ (s : MockState) (tid : String) (t : TaskStatus),
      s.tasks.find? tid = some t →
      ((t.status = .queued ∨ t.status = .running) →
        (MockAgentProvider.cancel_task s tid).2 = true ∧
        (MockAgentProvider.cancel_task s tid).1.tasks.find? tid =
          some { t with status := .cancelled } ∧
        (MockAgentProvider.cancel_task s tid).1.agents = s.agents ∧
        (MockAgentProvider.cancel_task s tid).1.execs = s.execs ∧
        ∀ k, k ≠ tid →
          (MockAgentProvider.cancel_task s tid).1.tasks.find? k =
            s.tasks.find? k) ∧
      (¬(t.status = .queued ∨ t.status = .running) →
        MockAgentProvider.cancel_task s tid = (s, false))) ∧
    (∀ (s : MockState) (tid : String), s.tasks.find? tid = none →
      MockAgentProvider.cancel_task s tid = (s, false)) ∧
    (∀ (s : OpenClawState) (tid : String) (now : Nat) (t : TaskStatus),
      s.tasks.find? tid = some t →
      ((t.status = .queued ∨ t.status = .running) →
        (OpenClawProvider.cancel_task s tid now).2 = true ∧
        (OpenClawProvider.cancel_task s tid now).1.tasks.find? tid =
          some { t with status := .cancelled, completed_at := some now } ∧
        (OpenClawProvider.cancel_task s tid now).1.agents = s.agents ∧
        ∀ k, k ≠ tid →
          (OpenClawProvider.cancel_task s tid now).1.tasks.find? k =
            s.tasks.find? k) ∧
      (¬(t.status = .queued ∨ t.status = .running) →
        OpenClawProvider.cancel_task s tid now = (s, false))) ∧
    (∀ (s : OpenClawState) (tid : String) (now : Nat),
      s.tasks.find? tid = none →
      OpenClawProvider.cancel_task s tid now = (s, false)) := by
  refine ⟨?_, ?_, ?_, ?_⟩
  · intro s tid t h
    constructor
    · intro ht
      rw [MockAgentProvider.cancel_task_of_active h ht]
      exact ⟨rfl, AList.find?_insert_self _ _ _, rfl, rfl,
        fun k hk => AList.find?_insert_ne _ _ hk⟩
    · intro ht
      exact MockAgentProvider.cancel_task_of_terminal h ht
  · intro s tid h
    exact MockAgentProvider.cancel_task_of_none h
  · intro s tid now t h
    constructor
    · intro ht
      rw [OpenClawProvider.oc_cancel_task_of_active now h ht]
      exact ⟨rfl, AList.find?_insert_self _ _ _, rfl,
        fun k hk => AList.find?_insert_ne _ _ hk⟩
    · intro ht
      exact OpenClawProvider.oc_cancel_task_of_terminal now h ht
  · intro s tid now h
    exact OpenClawProvider.oc_cancel_task_of_none now h

/-- Witness for C2: the amended cancel semantics instantiated on concrete
queued tasks of both providers. -/
theorem C2_cancel_amended_witness :
    (MockAgentProvider.cancel_task mockWithQueued "t1").2 = true ∧
    (OpenClawProvider.cancel_task ocWithQueued "t1" 7).1.tasks.find? "t1" =
      some { queuedTask1 with status := .cancelled, completed_at := some 7 } :=
  ⟨((C2_cancel_amended.1 mockWithQueued "t1" queuedTask1 (by decide)).1
      (by decide)).1,
   ((C2_cancel_amended.2.2.1 ocWithQueued "t1" 7 queuedTask1 (by decide)).1
      (by decide)).2.1⟩

/-- C5 (counterexample): a `failed` task with both timestamps set is ignored
by the implemented average (which filters on `status == "completed"`), while
the claim's status-blind mean counts it — the implemented value 0 differs
from the claim's value 5 on this state. -/
theorem C5_average_counterexample :
    (MockAgentProvider.get_system_metrics mockWithFailedStamped 0).average_task_time_seconds = 0 ∧
    claimAverageTaskTime (AList.values mockWithFailedStamped.tasks) = 5 ∧
    (MockAgentProvider.get_system_metrics mockWithFailedStamped 0).average_task_time_seconds ≠
      claimAverageTaskTime (AList.values mockWithFailedStamped.tasks) := by
  have h1 : (MockAgentProvider.get_system_metrics mockWithFailedStamped 0).average_task_time_seconds = 0 := by
    decide
  have h2 : claimAverageTaskTime (AList.values mockWithFailedStamped.tasks) = 5 := by
    unfold claimAverageTaskTime stampedDurations meanOrZero mockWithFailedStamped
      failedStampedTask
    norm_num [AList.values, MockAgentProvider.durationSec]
  exact ⟨h1, h2, by rw [h1, h2]; norm_num⟩

/-- C5 (amended): in both providers `average_task_time_seconds` equals the
mean of `completed_at - started_at` over exactly the tasks whose status is
`completed` *and* that have both timestamps set, and 0 when no such task
exists; timestamped tasks of any other status are excluded. -/
theorem C5_average_amended (sm : MockState) (so : OpenClawState) (u1 u2 : Nat) :
    (MockAgentProvider.get_system_metrics sm u1).average_task_time_seconds =
      completedAverageTaskTime (AList.values sm.tasks) ∧
    (OpenClawProvider.get_system_metrics so u2).average_task_time_seconds =
      completedAverageTaskTime (AList.values so.tasks) := by
  constructor
  · unfold MockAgentProvider.get_system_metrics completedAverageTaskTime
      meanOrZero completedStampedDurations
    simp [List.length_map]
  · unfold OpenClawProvider.get_system_metrics completedAverageTaskTime
      meanOrZero completedStampedDurations
    simp [List.length_map]

/-- C6: with no caller-supplied binding, both providers bind the submitted
task to the *first* agent whose status is `idle` in roster order (never a
busy one) and return it `queued`; when no agent is idle the OpenClaw
provider falls back to the default agent id `"main"`. -/
theorem C6_auto_route :
    (∀ (s : MockState) (req : TaskRequest) (genId : String) (now : Nat)
       (a0 : AgentStatus),
      req.agent_id = none →
      firstIdleSpec (MockAgentProvider.list_agents s) = some a0 →
      (MockAgentProvider.submit_task s req genId now).2.status = .queued ∧
      (MockAgentProvider.submit_task s req genId now).2.agent_id =
        some a0.agent_id ∧
      a0.status = .idle) ∧
    (∀ (s : OpenClawState) (req : TaskRequest) (genId : String) (now : Nat)
       (a0 : AgentStatus),
      req.agent_id = none →
      firstIdleSpec (AList.values s.agents) = some a0 →
      (OpenClawProvider.submit_task s req genId now).2.status = .queued ∧
      (OpenClawProvider.submit_task s req genId now).2.agent_id =
        some a0.agent_id ∧
      a0.status = .idle) ∧
    (∀ (s : OpenClawState) (req : TaskRequest) (genId : String) (now : Nat),
      req.agent_id = none →
      firstIdleSpec (AList.values s.agents) = none →
      (OpenClawProvider.submit_task s req genId now).2.status = .queued ∧
      (OpenClawProvider.submit_task s req genId now).2.agent_id = some "main") := by
  refine ⟨?_, ?_, ?_⟩
  · intro s req genId now a0 hreq hfi
    refine ⟨rfl, ?_, firstIdleSpec_idle hfi⟩
    show (MockAgentProvider.submitted_task s req genId now).agent_id =
      some a0.agent_id
    unfold MockAgentProvider.submitted_task MockAgentProvider.route_agent_id
    rw [hreq]
    simp only [MockAgentProvider.list_agents] at hfi
    rw [filter_idle_head_eq_firstIdleSpec] at *
    simp [strTruthy, hfi]
  · intro s req genId now a0 hreq hfi
    refine ⟨rfl, ?_, firstIdleSpec_idle hfi⟩
    show (OpenClawProvider.submit_task s req genId now).2.agent_id =
      some a0.agent_id
    unfold OpenClawProvider.submit_task
    rw [hreq]
    rw [filter_idle_head_eq_firstIdleSpec] at *
    simp [strTruthy, hfi]
  · intro s req genId now hreq hfi
    refine ⟨rfl, ?_⟩
    unfold OpenClawProvider.submit_task
    rw [hreq]
    rw [filter_idle_head_eq_firstIdleSpec] at *
    simp [strTruthy, hfi]

/-- Witness for C6: the idle agent `"a1"` is picked over the busy `"b1"`
that precedes it in roster order, and the default `"main"` is used when
nothing is idle. -/
theorem C6_auto_route_witness :
    (MockAgentProvider.submit_task mockTwoAgents plainReq "t9" 3).2.agent_id =
      some "a1" ∧
    (OpenClawProvider.submit_task ocNoIdle plainReq "t9" 3).2.agent_id =
      some "main" :=
  ⟨(C6_auto_route.1 mockTwoAgents plainReq "t9" 3 idleAgentA rfl (by decide)).2.1,
   (C6_auto_route.2.2 ocNoIdle plainReq "t9" 3 rfl (by decide)).2⟩

/-- C10: `create_agent` called with an agent id already in the roster never
raises an already-exists error: the in-memory provider unconditionally
stores a fresh record (idle, no current task, zero counters); the OpenClaw
provider's outcome is independent of whether the id existed (it checks
nothing locally), and on every successful outcome (2xx response, or the
local fallback on a 404 error) the stored record is the fresh one. -/
theorem C10_create_or_replace :
    (∀ (s : MockState) (cfg : AgentConfig) (now : Nat),
      s.agents.contains cfg.agent_id = true →
      (MockAgentProvider.create_agent s cfg now).1.agents.find? cfg.agent_id =
        some (MockAgentProvider.create_agent s cfg now).2 ∧
      (MockAgentProvider.create_agent s cfg now).2.status = .idle ∧
      (MockAgentProvider.create_agent s cfg now).2.current_task = none ∧
      (MockAgentProvider.create_agent s cfg now).2.tasks_completed = 0 ∧
      (MockAgentProvider.create_agent s cfg now).2.tasks_failed = 0) ∧
    (∀ (s : OpenClawState) (cfg : AgentConfig) (o : HttpOutcome Unit) (now : Nat),
      (OpenClawProvider.create_agent s cfg o now).2 =
        (OpenClawProvider.create_agent { s with agents := [] } cfg o now).2) ∧
    (∀ (s : OpenClawState) (cfg : AgentConfig) (b : Unit) (now code : Nat),
      s.agents.contains cfg.agent_id = true →
      (code = 200 ∨ code = 201) →
      (OpenClawProvider.create_agent s cfg (.resp code b) now).1.agents.find?
          cfg.agent_id = some (OpenClawProvider.created_status s cfg now) ∧
      (OpenClawProvider.create_agent s cfg (.resp code b) now).2 =
        .ok (OpenClawProvider.created_status s cfg now) ∧
      (OpenClawProvider.created_status s cfg now).status = .idle ∧
      (OpenClawProvider.created_status s cfg now).current_task = none ∧
      (OpenClawProvider.created_status s cfg now).tasks_completed = 0 ∧
      (OpenClawProvider.created_status s cfg now).tasks_failed = 0) ∧
    (∀ (s : OpenClawState) (cfg : AgentConfig) (now : Nat),
      s.agents.contains cfg.agent_id = true →
      (OpenClawProvider.create_agent s cfg (.statusError 404) now).1.agents.find?
          cfg.agent_id = some (OpenClawProvider.created_status_local cfg now) ∧
      (OpenClawProvider.create_agent s cfg (.statusError 404) now).2 =
        .ok (OpenClawProvider.created_status_local cfg now) ∧
      (OpenClawProvider.created_status_local cfg now).status = .idle ∧
      (OpenClawProvider.created_status_local cfg now).current_task = none ∧
      (OpenClawProvider.created_status_local cfg now).tasks_completed = 0 ∧
      (OpenClawProvider.created_status_local cfg now).tasks_failed = 0) := by
  refine ⟨?_, ?_, ?_, ?_⟩
  · intro s cfg now _
    exact ⟨AList.find?_insert_self _ _ _, rfl, rfl, rfl, rfl⟩
  · intro s cfg o now
    cases o with
    | resp code b =>
      by_cases hcode : code = 200 ∨ code = 201
      · rw [OpenClawProvider.create_agent_resp_success s cfg b now hcode,
          OpenClawProvider.create_agent_resp_success _ cfg b now hcode]
        rfl
      · rw [OpenClawProvider.create_agent_resp_failure s cfg b now hcode,
          OpenClawProvider.create_agent_resp_failure _ cfg b now hcode]
    | statusError code =>
      by_cases hcode : code = 404
      · subst hcode
        rw [OpenClawProvider.create_agent_status_404,
          OpenClawProvider.create_agent_status_404]
      · rw [OpenClawProvider.create_agent_status_other s cfg now hcode,
          OpenClawProvider.create_agent_status_other _ cfg now hcode]
    | exn m => rfl
  · intro s cfg b now code _ hcode
    rw [OpenClawProvider.create_agent_resp_success s cfg b now hcode]
    exact ⟨AList.find?_insert_self _ _ _, rfl, rfl, rfl, rfl, rfl⟩
  · intro s cfg now _
    rw [OpenClawProvider.create_agent_status_404]
    exact ⟨AList.find?_insert_self _ _ _, rfl, rfl, rfl, rfl, rfl⟩

/-- Witness for C10: duplicate-id creations on concrete rosters of both
providers replace the stored records with fresh ones. -/
theorem C10_create_or_replace_witness :
    (MockAgentProvider.create_agent mockTwoAgents dupCfgMock 4).1.agents.find?
        "a1" = some (MockAgentProvider.create_agent mockTwoAgents dupCfgMock 4).2 ∧
    (OpenClawProvider.create_agent ocOneAgent dupCfgOc (.resp 201 ()) 4).1.agents.find?
        "a" = some (OpenClawProvider.created_status ocOneAgent dupCfgOc 4) ∧
    (OpenClawProvider.create_agent ocOneAgent dupCfgOc (.statusError 404) 4).1.agents.find?
        "a" = some (OpenClawProvider.created_status_local dupCfgOc 4) :=
  ⟨(C10_create_or_replace.1 mockTwoAgents dupCfgMock 4 (by decide)).1,
   (C10_create_or_replace.2.2.1 ocOneAgent dupCfgOc () 4 201 (by decide)
     (Or.inr rfl)).1,
   (C10_create_or_replace.2.2.2 ocOneAgent dupCfgOc 4 (by decide)).1⟩

/-- C7 (counterexample): with agent `"a"` present locally, a remote deletion
answered with a 500 response makes `delete_agent` return false and leaves
the local roster entry in place, and a transport-level exception propagates
to the caller — refuting "the local roster entry is still cleaned up and a
boolean is returned" on remote failure. -/
theorem C7_delete_counterexample :
    OpenClawProvider.delete_agent ocOneAgent "a" (.resp 500 ()) =
      (ocOneAgent, .ok false) ∧
    AList.contains ocOneAgent.agents "a" = true ∧
    OpenClawProvider.delete_agent ocOneAgent "a" (.exn "connection reset") =
      (ocOneAgent, .error (.otherError "connection reset")) := by
  refine ⟨?_, ?_, ?_⟩
  · exact OpenClawProvider.delete_agent_resp_failure _ _ _ (by decide)
  · decide
  · rfl

/-- C7 (amended): the in-memory provider returns false for an unknown agent
and true after erasing an existing one. The OpenClaw provider cleans up the
local entry only when the remote delete returns 200/204 (then always
returning true) or raises a 404 HTTP-status error (then returning whether
the agent existed locally); any other remote response returns false with the
local roster untouched, a non-404 HTTP-status error is re-raised, and any
other exception propagates to the caller. -/
theorem C7_delete_amended :
    (∀ (s : MockState) (aid : String),
      (s.agents.contains aid = true →
        MockAgentProvider.delete_agent s aid =
          ({ s with agents := s.agents.erase aid }, true)) ∧
      (s.agents.contains aid = false →
        MockAgentProvider.delete_agent s aid = (s, false))) ∧
    (∀ (s : OpenClawState) (aid : String) (b : Unit) (code : Nat),
      (code = 200 ∨ code = 204) →
      OpenClawProvider.delete_agent s aid (.resp code b) =
        (if s.agents.contains aid then { s with agents := s.agents.erase aid }
         else s, .ok true)) ∧
    (∀ (s : OpenClawState) (aid : String) (b : Unit) (code : Nat),
      ¬(code = 200 ∨ code = 204) →
      OpenClawProvider.delete_agent s aid (.resp code b) = (s, .ok false)) ∧
    (∀ (s : OpenClawState) (aid : String),
      OpenClawProvider.delete_agent s aid (.statusError 404) =
        (if s.agents.contains aid
         then ({ s with agents := s.agents.erase aid }, .ok true)
         else (s, .ok false))) ∧
    (∀ (s : OpenClawState) (aid : String) (code : Nat), ¬(code = 404) →
      OpenClawProvider.delete_agent s aid (.statusError code) =
        (s, .error (.httpStatusError code))) ∧
    (∀ (s : OpenClawState) (aid : String) (m : String),
      OpenClawProvider.delete_agent s aid (.exn m) =
        (s, .error (.otherError m))) := by
  refine ⟨?_, ?_, ?_, ?_, ?_, ?_⟩
  · intro s aid
    constructor
    · intro h; unfold MockAgentProvider.delete_agent; simp [h]
    · intro h; unfold MockAgentProvider.delete_agent; simp [h]
  · intro s aid b code hcode
    exact OpenClawProvider.delete_agent_resp_success s aid b hcode
  · intro s aid b code hcode
    exact OpenClawProvider.delete_agent_resp_failure s aid b hcode
  · intro s aid
    exact OpenClawProvider.delete_agent_status_404 s aid
  · intro s aid code hcode
    exact OpenClawProvider.delete_agent_status_other s aid hcode
  · intro s aid m
    exact OpenClawProvider.delete_agent_exn s aid m

/-- Witness for C7: a concrete local deletion succeeds and erases, and a
concrete remote 500 leaves the local roster untouched. -/
theorem C7_delete_amended_witness :
    MockAgentProvider.delete_agent mockTwoAgents "a1" =
      ({ mockTwoAgents with agents := AList.erase mockTwoAgents.agents "a1" },
       true) ∧
    OpenClawProvider.delete_agent ocOneAgent "a" (.resp 500 ()) =
      (ocOneAgent, .ok false) :=
  ⟨(C7_delete_amended.1 mockTwoAgents "a1").1 (by decide),
   C7_delete_amended.2.2.1 ocOneAgent "a" () 500 (by decide)⟩

/-- C3 (counterexample): a failing `initialize("openclaw", ...)` (the
constructed provider's own `initialize()` raises) leaves the half-initialized
provider installed, and the subsequent `get_instance()` *succeeds* — refuting
"the service is left with no active provider installed". -/
theorem C3_init_counterexample :
    (AgentService.init AgentService.fresh "openclaw" true).2 =
      .error (.otherError "provider initialize raised") ∧
    (AgentService.init AgentService.fresh "openclaw" true).1.provider =
      some ⟨.openclaw, false⟩ ∧
    AgentService.get_instance
      (AgentService.init AgentService.fresh "openclaw" true).1 = .ok () := by
  refine ⟨rfl, rfl, rfl⟩

/-- C3 (amended): an unknown provider type fails with the configuration
error before any assignment, so a never-initialized service still has no
provider and `get_instance` fails; but when the constructed provider's
`initialize()` raises, the fresh (never-readied) provider remains installed
and `get_instance` succeeds; likewise, with a provider already active, a
failed re-initialization with an unknown type leaves the old shut-down
provider referenced and `get_instance` succeeds. -/
theorem C3_init_amended :
    (∀ (pt : String) (ir : Bool),
      pt ≠ "mock" → pt ≠ "openclaw" → pt ≠ "langgraph" → pt ≠ "crewai" →
      AgentService.init AgentService.fresh pt ir =
        ({ instance_exists := true, provider := none },
         .error (.valueError ("Unknown provider type: " ++ pt))) ∧
      AgentService.get_instance (AgentService.init AgentService.fresh pt ir).1 =
        .error (.runtimeError
          "AgentService not initialized. Call initialize() first.")) ∧
    (∀ (s : ServiceState),
      (AgentService.init s "openclaw" true).1.provider =
        some ⟨.openclaw, false⟩ ∧
      (AgentService.init s "openclaw" true).2 =
        .error (.otherError "provider initialize raised") ∧
      AgentService.get_instance (AgentService.init s "openclaw" true).1 =
        .ok ()) ∧
    (∀ (s : ServiceState),
      (AgentService.init s "mock" true).1.provider = some ⟨.mock, false⟩ ∧
      AgentService.get_instance (AgentService.init s "mock" true).1 = .ok ()) ∧
    (∀ (p : ProviderBox) (pt : String) (ir : Bool),
      pt ≠ "mock" → pt ≠ "openclaw" → pt ≠ "langgraph" → pt ≠ "crewai" →
      (AgentService.init
        { instance_exists := true, provider := some p } pt ir).1.provider =
          some { p with ready := false } ∧
      AgentService.get_instance (AgentService.init
        { instance_exists := true, provider := some p } pt ir).1 = .ok ()) := by
  refine ⟨?_, ?_, ?_, ?_⟩
  · intro pt ir h1 h2 h3 h4
    unfold AgentService.init AgentService.get_instance AgentService.fresh
    simp [h1, h2, h3, h4]
  · intro s
    unfold AgentService.init AgentService.get_instance
    cases s.provider <;> simp
  · intro s
    unfold AgentService.init AgentService.get_instance
    cases s.provider <;> simp
  · intro p pt ir h1 h2 h3 h4
    unfold AgentService.init AgentService.get_instance
    simp [h1, h2, h3, h4]

/-- Witness for C3: the amended service semantics evaluated at the concrete
bogus provider type and at a failing openclaw initialization. -/
theorem C3_init_amended_witness :
    AgentService.get_instance
      (AgentService.init AgentService.fresh "bogus-provider" false).1 =
      .error (.runtimeError
        "AgentService not initialized. Call initialize() first.") ∧
    AgentService.get_instance
      (AgentService.init AgentService.fresh "openclaw" true).1 = .ok () :=
  ⟨(C3_init_amended.1 "bogus-provider" false (by decide) (by decide)
      (by decide) (by decide)).2,
   (C3_init_amended.2.1 AgentService.fresh).2.2⟩

/-- C4 (counterexample): resyncing a roster that reports only `"a"` resets
agent `"a"`'s counters from 5/2 to 0/0 (so `tasks_completed` decreases) and
leaves the no-longer-reported `"b"` in the local map (no pruning) — refuting
both the counter-preservation and the pruning parts of the claim. -/
theorem C4_sync_counterexample :
    (AList.find? ocTwoAgents.agents "a").map AgentStatus.tasks_completed =
      some 5 ∧
    ((OpenClawProvider.list_agents ocTwoAgents (.resp 200 remoteOnlyA) hoOk
        9).1.agents.find? "a").map AgentStatus.tasks_completed = some 0 ∧
    ((OpenClawProvider.list_agents ocTwoAgents (.resp 200 remoteOnlyA) hoOk
        9).1.agents.find? "a").map AgentStatus.tasks_failed = some 0 ∧
    (OpenClawProvider.list_agents ocTwoAgents (.resp 200 remoteOnlyA) hoOk
        9).1.agents.find? "b" = some localOnlyAgentB := by
  refine ⟨?_, ?_, ?_, ?_⟩ <;> decide

/-- C4 (amended): a resync *overwrites* every externally-reported agent with
a fresh record (status idle, `tasks_completed = tasks_failed = 0`), inserts
fresh entries for newly seen agents, and never prunes local entries that are
no longer reported; consequently an agent's counters are reset (and so can
decrease) whenever a resync re-reports it. -/
theorem C4_sync_amended :
    (∀ (agents : AList AgentStatus) (rs : List RemoteAgent) (now : Nat)
       (k : String),
      k ∉ rs.map RemoteAgent.id →
      (OpenClawProvider.merge_remote_agents agents rs now).find? k =
        agents.find? k) ∧
    (∀ (agents : AList AgentStatus) (rs : List RemoteAgent) (now : Nat),
      (rs.map RemoteAgent.id).Nodup →
      ∀ r ∈ rs, (OpenClawProvider.merge_remote_agents agents rs now).find?
        r.id = some (OpenClawProvider.remote_agent_status r now)) ∧
    (∀ (r : RemoteAgent) (now : Nat),
      (OpenClawProvider.remote_agent_status r now).status = .idle ∧
      (OpenClawProvider.remote_agent_status r now).tasks_completed = 0 ∧
      (OpenClawProvider.remote_agent_status r now).tasks_failed = 0) ∧
    (∀ (s : OpenClawState) (rs : List RemoteAgent)
       (ho : Nat → HttpOutcome Unit) (now : Nat),
      (OpenClawProvider.merge_remote_agents s.agents rs now).isEmpty = false →
      OpenClawProvider.sync_agents s (.resp 200 rs) ho now =
        ({ s with agents := OpenClawProvider.merge_remote_agents s.agents rs now },
         .ok ())) := by
  refine ⟨?_, ?_, ?_, ?_⟩
  · intro agents rs now k hk
    exact OpenClawProvider.merge_remote_agents_find?_not_mem agents rs now hk
  · intro agents rs now hnd r hr
    exact OpenClawProvider.merge_remote_agents_find?_mem agents rs now hnd hr
  · intro r now
    exact ⟨rfl, rfl, rfl⟩
  · intro s rs ho now hne
    unfold OpenClawProvider.sync_agents
    simp [hne]

/-- Witness for C4: on the concrete two-agent roster, the unreported agent
`"b"` keeps its old record and the reported agent `"a"` is rebound to the
fresh zero-counter record. -/
theorem C4_sync_amended_witness :
    (OpenClawProvider.merge_remote_agents ocTwoAgents.agents remoteOnlyA
        9).find? "b" = AList.find? ocTwoAgents.agents "b" ∧
    (OpenClawProvider.merge_remote_agents ocTwoAgents.agents remoteOnlyA
        9).find? "a" =
      some (OpenClawProvider.remote_agent_status
        { id := "a", name := some "A" } 9) :=
  ⟨C4_sync_amended.1 ocTwoAgents.agents remoteOnlyA 9 "b" (by decide),
   C4_sync_amended.2.1 ocTwoAgents.agents remoteOnlyA 9 (by decide)
     { id := "a", name := some "A" } (by decide)⟩

/-- Every step of the in-memory provider preserves "no stored task is
failed": no branch of any operation or execution unit ever assigns the
`failed` status. -/
theorem mockStep_preserves_noFailed {s : MockState} {l : MockLabel}
    {s' : MockState} (hstep : MockStep s l s') (h : NoFailedTasks s) :
    NoFailedTasks s' := by
  cases hstep with
  | init_op =>
    intro p hp
    rw [MockAgentProvider.init_tasks] at hp
    exact h p hp
  | shutdown_op =>
    intro p hp
    rw [MockAgentProvider.shutdown_tasks] at hp
    simp at hp
  | create_agent =>
    intro p hp
    rw [MockAgentProvider.create_agent_tasks] at hp
    exact h p hp
  | delete_agent =>
    intro p hp
    rw [MockAgentProvider.delete_agent_tasks] at hp
    exact h p hp
  | submit_task =>
    intro p hp
    rw [MockAgentProvider.submit_task_fst] at hp
    rcases AList.mem_insert hp with rfl | hp'
    · intro hf
      rw [MockAgentProvider.submitted_task_status] at hf
      exact TaskState.noConfusion hf
    · exact h p hp'
  | exec_begin h' =>
    rename_i tid req now
    intro p hp
    rw [MockAgentProvider.exec_begin_step_tasks] at hp
    rcases MockAgentProvider.execute_task_begin_tasks_cases s tid now with
      hcs | ⟨t, _, hcs⟩
    · rw [hcs] at hp
      exact h p hp
    · rw [hcs] at hp
      rcases AList.mem_insert hp with rfl | hp'
      · intro hf
        exact TaskState.noConfusion hf
      · exact h p hp'
  | exec_finish h' =>
    rename_i tid req now
    intro p hp
    rw [MockAgentProvider.exec_finish_step_tasks] at hp
    cases hfind : s.tasks.find? tid with
    | none =>
      rw [MockAgentProvider.execute_task_finish_of_none req now hfind] at hp
      exact h p hp
    | some t =>
      rw [MockAgentProvider.execute_task_finish_tasks_of_some req now hfind] at hp
      rcases AList.mem_insert hp with rfl | hp'
      · intro hf
        exact TaskState.noConfusion hf
      · exact h p hp'
  | cancel_task =>
    rename_i tid
    intro p hp
    cases hfind : s.tasks.find? tid with
    | none =>
      rw [MockAgentProvider.cancel_task_of_none hfind] at hp
      exact h p hp
    | some t =>
      by_cases ht : t.status = .queued ∨ t.status = .running
      · rw [MockAgentProvider.cancel_task_of_active hfind ht] at hp
        rcases AList.mem_insert hp with rfl | hp'
        · intro hf
          exact TaskState.noConfusion hf
        · exact h p hp'
      · rw [MockAgentProvider.cancel_task_of_terminal hfind ht] at hp
        exact h p hp

/-- C8: across every reachable interleaving of the in-memory provider's
operations and execution units, no stored task ever has status `failed`;
moreover a task's status only ever *becomes* `cancelled` through an explicit
`cancel_task` step — every other step either preserves an existing
`cancelled` or produces a different status. -/
theorem C8_mock_never_fails :
    (∀ s, MockReach s → NoFailedTasks s) ∧
    (∀ (s : MockState) (l : MockLabel) (s' : MockState), MockStep s l s' →
      ∀ (tid : String) (t' : TaskStatus),
        s'.tasks.find? tid = some t' → t'.status = .cancelled →
        (∃ t, s.tasks.find? tid = some t ∧ t.status = .cancelled) ∨
        l = .cancelTask tid) := by
  constructor
  · intro s hs
    induction hs with
    | start now =>
      intro p hp
      rw [MockAgentProvider.init_tasks] at hp
      simp [MockAgentProvider.init_state] at hp
    | step hr hstep ih => exact mockStep_preserves_noFailed hstep ih
  · intro s l s' hstep tid t' hf hc
    cases hstep with
    | init_op =>
      rw [MockAgentProvider.init_tasks] at hf
      exact Or.inl ⟨t', hf, hc⟩
    | shutdown_op =>
      rw [MockAgentProvider.shutdown_tasks] at hf
      simp [AList.find?] at hf
    | create_agent =>
      rw [MockAgentProvider.create_agent_tasks] at hf
      exact Or.inl ⟨t', hf, hc⟩
    | delete_agent =>
      rw [MockAgentProvider.delete_agent_tasks] at hf
      exact Or.inl ⟨t', hf, hc⟩
    | submit_task =>
      rename_i req genId now
      rw [MockAgentProvider.submit_task_fst] at hf
      by_cases hk : tid = MockAgentProvider.resolve_task_id req genId
      · subst hk
        rw [AList.find?_insert_self] at hf
        injection hf with hf
        rw [← hf, MockAgentProvider.submitted_task_status] at hc
        exact TaskState.noConfusion hc
      · rw [AList.find?_insert_ne _ _ hk] at hf
        exact Or.inl ⟨t', hf, hc⟩
    | exec_begin h' =>
      rename_i tid0 req now
      by_cases htid : tid = tid0
      · subst htid
        rw [MockAgentProvider.exec_begin_step_tasks] at hf
        rcases MockAgentProvider.execute_task_begin_tasks_cases s tid now with
          hcs | ⟨t, _, hcs⟩
        · rw [hcs] at hf
          exact Or.inl ⟨t', hf, hc⟩
        · rw [hcs, AList.find?_insert_self] at hf
          injection hf with hf
          rw [← hf] at hc
          exact TaskState.noConfusion hc
      · rw [MockAgentProvider.exec_begin_step_tasks_find_ne now htid] at hf
        exact Or.inl ⟨t', hf, hc⟩
    | exec_finish h' =>
      rename_i tid0 req now
      by_cases htid : tid = tid0
      · subst htid
        rw [MockAgentProvider.exec_finish_step_tasks] at hf
        cases hfind : s.tasks.find? tid with
        | none =>
          rw [MockAgentProvider.execute_task_finish_of_none req now hfind] at hf
          rw [hfind] at hf
          exact Option.noConfusion hf
        | some t =>
          rw [MockAgentProvider.execute_task_finish_tasks_of_some req now hfind,
            AList.find?_insert_self] at hf
          injection hf with hf
          rw [← hf] at hc
          exact TaskState.noConfusion hc
      · rw [MockAgentProvider.exec_finish_step_tasks_find_ne req now htid] at hf
        exact Or.inl ⟨t', hf, hc⟩
    | cancel_task =>
      rename_i tid0
      by_cases htid : tid = tid0
      · subst htid
        exact Or.inr rfl
      · rw [MockAgentProvider.cancel_task_tasks_find_ne htid] at hf
        exact Or.inl ⟨t', hf, hc⟩

/-- Witness for C8: the initial three-agent state satisfies the no-failed
invariant, and a concrete cancel step is recognised as the producer of a
`cancelled` status. -/
theorem C8_mock_never_fails_witness :
    NoFailedTasks (MockAgentProvider.init MockAgentProvider.init_state 0) ∧
    ((∃ t, mockWithQueued.tasks.find? "t1" = some t ∧ t.status = .cancelled) ∨
      MockLabel.cancelTask "t1" = .cancelTask "t1") :=
  ⟨C8_mock_never_fails.1 _ (MockReach.start 0),
   C8_mock_never_fails.2 mockWithQueued (.cancelTask "t1")
     (MockAgentProvider.cancel_task mockWithQueued "t1").1
     MockStep.cancel_task "t1" { queuedTask1 with status := .cancelled }
     (by decide) rfl⟩

/-- Every step that is not a colliding submit preserves "task `tid`, if
present, is queued-or-cancelled and unbound, and its execution unit is not
asleep". -/
theorem mockStep_preserves_unbound_queued {s : MockState} {l : MockLabel}
    {s' : MockState} (hstep : MockStep s l s') (tid : String)
    (hP : ∀ t, s.tasks.find? tid = some t →
      (t.status = .queued ∨ t.status = .cancelled) ∧ t.agent_id = none)
    (hE : ∀ u : TaskRequest, s.execs.find? tid ≠ some (u, ExecPhase.sleeping))
    (hl : ∀ req genId now, l = .submitTask req genId now →
      MockAgentProvider.resolve_task_id req genId ≠ tid) :
    (∀ t, s'.tasks.find? tid = some t →
      (t.status = .queued ∨ t.status = .cancelled) ∧ t.agent_id = none) ∧
    (∀ u : TaskRequest, s'.execs.find? tid ≠ some (u, ExecPhase.sleeping)) := by
  cases hstep with
  | init_op =>
    constructor
    · intro t h'
      rw [MockAgentProvider.init_tasks] at h'
      exact hP t h'
    · intro u hu
      rw [MockAgentProvider.init_execs] at hu
      exact hE u hu
  | shutdown_op =>
    constructor
    · intro t h'
      rw [MockAgentProvider.shutdown_tasks] at h'
      simp [AList.find?] at h'
    · intro u hu
      rw [MockAgentProvider.shutdown_execs] at hu
      exact hE u hu
  | create_agent =>
    constructor
    · intro t h'
      rw [MockAgentProvider.create_agent_tasks] at h'
      exact hP t h'
    · intro u hu
      rw [MockAgentProvider.create_agent_execs] at hu
      exact hE u hu
  | delete_agent =>
    constructor
    · intro t h'
      rw [MockAgentProvider.delete_agent_tasks] at h'
      exact hP t h'
    · intro u hu
      rw [MockAgentProvider.delete_agent_execs] at hu
      exact hE u hu
  | submit_task =>
    rename_i req genId now
    have hr := hl req genId now rfl
    have hk : tid ≠ MockAgentProvider.resolve_task_id req genId :=
      fun he => hr he.symm
    constructor
    · intro t h'
      rw [MockAgentProvider.submit_task_fst] at h'
      rw [AList.find?_insert_ne _ _ hk] at h'
      exact hP t h'
    · intro u hu
      rw [MockAgentProvider.submit_task_fst] at hu
      rw [AList.find?_insert_ne _ _ hk] at hu
      exact hE u hu
  | exec_begin h' =>
    rename_i tid0 req now
    by_cases htid : tid0 = tid
    · subst htid
      have hgf : MockAgentProvider.execute_task_begin s tid0 now = (s, false) := by
        cases hfind : s.tasks.find? tid0 with
        | none => exact MockAgentProvider.execute_task_begin_of_none now hfind
        | some t =>
          exact MockAgentProvider.execute_task_begin_of_guard_fail now hfind
            (fun aid haa => by rw [(hP t hfind).2] at haa; cases haa)
      rw [MockAgentProvider.exec_begin_step_of_fail hgf]
      constructor
      · intro t h'
        exact hP t h'
      · intro u hu
        rw [show ({ s with execs := s.execs.erase tid0 } : MockState).execs =
          s.execs.erase tid0 from rfl, AList.find?_erase_self] at hu
        exact Option.noConfusion hu
    · have hk : tid ≠ tid0 := fun he => htid he.symm
      constructor
      · intro t h'
        rw [MockAgentProvider.exec_begin_step_tasks_find_ne now hk] at h'
        exact hP t h'
      · intro u hu
        rw [MockAgentProvider.exec_begin_step_execs_find_ne now hk] at hu
        exact hE u hu
  | exec_finish h' =>
    rename_i tid0 req now
    by_cases htid : tid0 = tid
    · subst htid
      exact absurd h' (hE req)
    · have hk : tid ≠ tid0 := fun he => htid he.symm
      constructor
      · intro t h'
        rw [MockAgentProvider.exec_finish_step_tasks_find_ne req now hk] at h'
        exact hP t h'
      · intro u hu
        rw [MockAgentProvider.exec_finish_step_execs_find_ne req now hk] at hu
        exact hE u hu
  | cancel_task =>
    rename_i tid0
    constructor
    · intro t h'
      by_cases htid : tid0 = tid
      · subst htid
        cases hfind : s.tasks.find? tid0 with
        | none =>
          rw [MockAgentProvider.cancel_task_of_none hfind] at h'
          exact hP t h'
        | some t0 =>
          rcases hP t0 hfind with ⟨hst, hag⟩
          rcases hst with hq | hcanc
          · rw [MockAgentProvider.cancel_task_of_active hfind (Or.inl hq)] at h'
            have h'' : (s.tasks.insert tid0 { t0 with status := TaskState.cancelled }).find? tid0 = some t := h'
            rw [AList.find?_insert_self] at h''
            injection h'' with hh
            rw [← hh]
            exact ⟨Or.inr rfl, hag⟩
          · have ht : ¬(t0.status = .queued ∨ t0.status = .running) := by
              rw [hcanc]
              rintro (h | h) <;> exact TaskState.noConfusion h
            rw [MockAgentProvider.cancel_task_of_terminal hfind ht] at h'
            exact hP t h'
      · have hk : tid ≠ tid0 := fun he => htid he.symm
        rw [MockAgentProvider.cancel_task_tasks_find_ne hk] at h'
        exact hP t h'
    · intro u hu
      rw [MockAgentProvider.cancel_task_execs] at hu
      exact hE u hu

/-- Once a task's execution unit is gone, every step that is not a colliding
submit keeps the task (if present) queued-or-cancelled and keeps the unit
gone — with no unit, no begin or finish step for this id can ever fire
again, whatever happens to the agent roster. -/
theorem mockStep_preserves_queued_no_unit {s : MockState} {l : MockLabel}
    {s' : MockState} (hstep : MockStep s l s') (tid : String)
    (hP : ∀ t, s.tasks.find? tid = some t →
      t.status = .queued ∨ t.status = .cancelled)
    (hU : s.execs.find? tid = none)
    (hl : ∀ req genId now, l = .submitTask req genId now →
      MockAgentProvider.resolve_task_id req genId ≠ tid) :
    (∀ t, s'.tasks.find? tid = some t →
      t.status = .queued ∨ t.status = .cancelled) ∧
    s'.execs.find? tid = none := by
  cases hstep with
  | init_op =>
    refine ⟨?_, ?_⟩
    · intro t h'
      rw [MockAgentProvider.init_tasks] at h'
      exact hP t h'
    · rw [MockAgentProvider.init_execs]
      exact hU
  | shutdown_op =>
    refine ⟨?_, ?_⟩
    · intro t h'
      rw [MockAgentProvider.shutdown_tasks] at h'
      simp [AList.find?] at h'
    · rw [MockAgentProvider.shutdown_execs]
      exact hU
  | create_agent =>
    refine ⟨?_, ?_⟩
    · intro t h'
      rw [MockAgentProvider.create_agent_tasks] at h'
      exact hP t h'
    · rw [MockAgentProvider.create_agent_execs]
      exact hU
  | delete_agent =>
    refine ⟨?_, ?_⟩
    · intro t h'
      rw [MockAgentProvider.delete_agent_tasks] at h'
      exact hP t h'
    · rw [MockAgentProvider.delete_agent_execs]
      exact hU
  | submit_task =>
    rename_i req genId now
    have hr := hl req genId now rfl
    have hk : tid ≠ MockAgentProvider.resolve_task_id req genId :=
      fun he => hr he.symm
    refine ⟨?_, ?_⟩
    · intro t h'
      rw [MockAgentProvider.submit_task_fst,
        AList.find?_insert_ne _ _ hk] at h'
      exact hP t h'
    · rw [MockAgentProvider.submit_task_fst, AList.find?_insert_ne _ _ hk]
      exact hU
  | exec_begin h' =>
    rename_i tid0 req now
    by_cases htid : tid0 = tid
    · subst htid
      rw [hU] at h'
      exact Option.noConfusion h'
    · have hk : tid ≠ tid0 := fun he => htid he.symm
      refine ⟨?_, ?_⟩
      · intro t h'
        rw [MockAgentProvider.exec_begin_step_tasks_find_ne now hk] at h'
        exact hP t h'
      · rw [MockAgentProvider.exec_begin_step_execs_find_ne now hk]
        exact hU
  | exec_finish h' =>
    rename_i tid0 req now
    by_cases htid : tid0 = tid
    · subst htid
      rw [hU] at h'
      exact Option.noConfusion h'
    · have hk : tid ≠ tid0 := fun he => htid he.symm
      refine ⟨?_, ?_⟩
      · intro t h'
        rw [MockAgentProvider.exec_finish_step_tasks_find_ne req now hk] at h'
        exact hP t h'
      · rw [MockAgentProvider.exec_finish_step_execs_find_ne req now hk]
        exact hU
  | cancel_task =>
    rename_i tid0
    refine ⟨?_, ?_⟩
    · intro t h'
      by_cases htid : tid0 = tid
      · subst htid
        cases hfind : s.tasks.find? tid0 with
        | none =>
          rw [MockAgentProvider.cancel_task_of_none hfind] at h'
          exact hP t h'
        | some t0 =>
          rcases hP t0 hfind with hq | hcanc
          · rw [MockAgentProvider.cancel_task_of_active hfind (Or.inl hq)] at h'
            have h'' : (s.tasks.insert tid0 { t0 with status := TaskState.cancelled }).find? tid0 = some t := h'
            rw [AList.find?_insert_self] at h''
            injection h'' with hh
            rw [← hh]
            exact Or.inr rfl
          · have ht : ¬(t0.status = .queued ∨ t0.status = .running) := by
              rw [hcanc]
              rintro (h | h) <;> exact TaskState.noConfusion h
            rw [MockAgentProvider.cancel_task_of_terminal hfind ht] at h'
            exact hP t h'
      · have hk : tid ≠ tid0 := fun he => htid he.symm
        rw [MockAgentProvider.cancel_task_tasks_find_ne hk] at h'
        exact hP t h'
    · rw [MockAgentProvider.cancel_task_execs]
      exact hU

/-- Run-level closure of `mockStep_preserves_queued_no_unit`: along every
non-colliding run from a state where the task's execution unit is gone, the
task (if present) stays queued-or-cancelled. -/
theorem mockSteps_preserves_queued_no_unit :
    ∀ {s : MockState} {ls : List MockLabel} {s' : MockState},
    MockSteps s ls s' → ∀ tid : String,
    (∀ t, s.tasks.find? tid = some t →
      t.status = .queued ∨ t.status = .cancelled) →
    s.execs.find? tid = none →
    (∀ l ∈ ls, ∀ req genId now, l = .submitTask req genId now →
      MockAgentProvider.resolve_task_id req genId ≠ tid) →
    ∀ t', s'.tasks.find? tid = some t' →
      t'.status = .queued ∨ t'.status = .cancelled := by
  intro s ls s' hsteps
  induction hsteps with
  | nil =>
    intro tid hP hU hl t' h'
    exact hP t' h'
  | cons hstep hrest ih =>
    intro tid hP hU hl
    have hl0 := hl _ (List.mem_cons_self _ _)
    have hnext := mockStep_preserves_queued_no_unit hstep tid hP hU hl0
    exact ih tid hnext.1 hnext.2
      (fun l hm => hl l (List.mem_cons_of_mem _ hm))

/-- C9: the in-memory provider's execution unit checks
`if agent_id and agent_id in self._agents` and otherwise does nothing at all
(the unit just ends). Consequently: a queued task with no agent binding
stays `queued` (or becomes `cancelled` by an explicit cancel) across every
run that does not overwrite its id with a colliding submit; and a queued
task whose bound agent id is falsy or absent from the roster at the moment
its execution unit runs likewise stays `queued` (or `cancelled`) through
every subsequent non-colliding run — the consumed unit can never fire
again, even if the agent is created later — so the task never reaches
`running`, `completed` or `failed`. -/
theorem C9_unbound_stays_queued :
    (∀ (s : MockState) (tid : String) (now : Nat) (t : TaskStatus),
      s.tasks.find? tid = some t →
      (∀ aid, t.agent_id = some aid →
        aid = "" ∨ s.agents.contains aid = false) →
      MockAgentProvider.execute_task_begin s tid now = (s, false) ∧
      MockAgentProvider.exec_begin_step s tid now =
        { s with execs := s.execs.erase tid }) ∧
    (∀ (s : MockState) (ls : List MockLabel) (s' : MockState),
      MockSteps s ls s' → ∀ tid : String,
      (∀ t, s.tasks.find? tid = some t →
        (t.status = .queued ∨ t.status = .cancelled) ∧ t.agent_id = none) →
      (∀ u : TaskRequest, s.execs.find? tid ≠ some (u, ExecPhase.sleeping)) →
      (∀ l ∈ ls, ∀ req genId now, l = .submitTask req genId now →
        MockAgentProvider.resolve_task_id req genId ≠ tid) →
      ∀ t', s'.tasks.find? tid = some t' →
        (t'.status = .queued ∨ t'.status = .cancelled) ∧ t'.agent_id = none) ∧
    (∀ (s : MockState) (tid : String) (now : Nat) (t : TaskStatus)
       (ls : List MockLabel) (s' : MockState),
      s.tasks.find? tid = some t → t.status = .queued →
      (∀ aid, t.agent_id = some aid →
        aid = "" ∨ s.agents.contains aid = false) →
      MockSteps (MockAgentProvider.exec_begin_step s tid now) ls s' →
      (∀ l ∈ ls, ∀ req genId now2, l = .submitTask req genId now2 →
        MockAgentProvider.resolve_task_id req genId ≠ tid) →
      ∀ t', s'.tasks.find? tid = some t' →
        t'.status = .queued ∨ t'.status = .cancelled) := by
  refine ⟨?_, ?_, ?_⟩
  · intro s tid now t h hg
    have hgf := MockAgentProvider.execute_task_begin_of_guard_fail now h hg
    exact ⟨hgf, MockAgentProvider.exec_begin_step_of_fail hgf⟩
  · intro s ls s' hsteps
    induction hsteps with
    | nil =>
      intro tid hP hE hl t' h'
      exact hP t' h'
    | cons hstep hrest ih =>
      intro tid hP hE hl
      have hl0 := hl _ (List.mem_cons_self _ _)
      have hnext := mockStep_preserves_unbound_queued hstep tid hP hE hl0
      exact ih tid hnext.1 hnext.2
        (fun l hlmem => hl l (List.mem_cons_of_mem _ hlmem))
  · intro s tid now t ls s' hfind hq hg hsteps hl
    have hgf := MockAgentProvider.execute_task_begin_of_guard_fail now hfind hg
    rw [MockAgentProvider.exec_begin_step_of_fail hgf] at hsteps
    refine mockSteps_preserves_queued_no_unit hsteps tid ?_ ?_ hl
    · intro t0 h0
      have h0' : s.tasks.find? tid = some t0 := h0
      rw [hfind] at h0'
      injection h0' with hh
      rw [← hh]
      exact Or.inl hq
    · exact AList.find?_erase_self _ _

/-- Witness for C9: the unbound queued task `"t2"`: its execution unit's
begin phase is a no-op, and after the unit runs the task is still queued and
unbound; and the ghost-bound task `"tg"` (bound agent absent when its unit
runs) is still queued even after the missing agent is created afterwards. -/
theorem C9_unbound_stays_queued_witness :
    MockAgentProvider.execute_task_begin mockUnbound "t2" 5 =
      (mockUnbound, false) ∧
    ((unboundTask.status = .queued ∨ unboundTask.status = .cancelled) ∧
      unboundTask.agent_id = none) ∧
    (ghostTask.status = .queued ∨ ghostTask.status = .cancelled) :=
  ⟨(C9_unbound_stays_queued.1 mockUnbound "t2" 5 unboundTask (by decide)
      (fun aid haa => by
        rw [show unboundTask.agent_id = none from rfl] at haa
        cases haa)).1,
   C9_unbound_stays_queued.2.1 mockUnbound [.execBegin "t2" 5]
     (MockAgentProvider.exec_begin_step mockUnbound "t2" 5)
     (MockSteps.cons (@MockStep.exec_begin mockUnbound "t2" plainReq 5
       (by decide)) MockSteps.nil)
     "t2"
     (fun t ht => by
        have h0 : AList.find? mockUnbound.tasks "t2" = some unboundTask := by
          decide
        rw [h0] at ht
        injection ht with hh
        rw [← hh]
        exact ⟨Or.inl rfl, rfl⟩)
     (fun u hu => by
        have h0 : AList.find? mockUnbound.execs "t2" =
            some (plainReq, ExecPhase.notStarted) := by decide
        rw [h0] at hu
        injection hu with hh
        injection hh with hh1 hh2
        exact ExecPhase.noConfusion hh2)
     (fun l hlmem req genId now heq => by
        simp at hlmem
        subst hlmem
        cases heq)
     unboundTask (by decide),
   C9_unbound_stays_queued.2.2 mockGhost "tg" 6 ghostTask
     [.createAgent ghostCfg 7]
     (MockAgentProvider.create_agent
       (MockAgentProvider.exec_begin_step mockGhost "tg" 6) ghostCfg 7).1
     (by decide) rfl
     (fun aid haa => by
        have h0 : ghostTask.agent_id = some "ghost" := rfl
        rw [h0] at haa
        injection haa with hh
        rw [← hh]
        exact Or.inr (by decide))
     (MockSteps.cons MockStep.create_agent MockSteps.nil)
     (fun l hlmem req genId now2 heq => by
        simp at hlmem
        subst hlmem
        cases heq)
     ghostTask (by decide)⟩

/-- C1 (counterexample): a legal schedule of the in-memory provider —
submit, the unit's first half, `cancel_task` during the simulated delay,
then the unit's second half — ends with the task `completed`: the terminal
`cancelled` status written by `cancel_task` is overwritten when the unit
resumes, refuting the claimed monotonicity and the claimed final status. -/
theorem C1_monotonic_counterexample :
    MockSteps c1s0 [.submitTask c1req "t1" 10, .execBegin "t1" 11,
      .cancelTask "t1", .execFinish "t1" 12] c1s4 ∧
    (MockAgentProvider.cancel_task c1s2 "t1").2 = true ∧
    (c1s3.tasks.find? "t1").map TaskStatus.status = some .cancelled ∧
    (c1s4.tasks.find? "t1").map TaskStatus.status = some .completed ∧
    TaskState.completed ≠ TaskState.cancelled := by
  refine ⟨?_, ?_, ?_, ?_, ?_⟩
  · exact MockSteps.cons MockStep.submit_task
      (MockSteps.cons (@MockStep.exec_begin c1s1 "t1" c1req 11 (by decide))
        (MockSteps.cons MockStep.cancel_task
          (MockSteps.cons (@MockStep.exec_finish c1s3 "t1" c1req 12 (by decide))
            MockSteps.nil)))
  · decide
  · decide
  · decide
  · decide

/-- C1 (amended): terminal statuses of the in-memory provider are preserved
by `cancel_task` and by every step other than the task's own execution unit
(and a colliding re-submit); but the execution unit re-checks nothing:
its second half unconditionally overwrites even a `cancelled` task with
`completed`, and its first half overwrites any status of a validly-bound
task with `running` — so a task cancelled while the unit is pending or in
its simulated delay is finally observed `completed`, not `cancelled`. -/
theorem C1_monotonic_amended :
    (∀ (s : MockState) (tid : String) (t : TaskStatus),
      s.tasks.find? tid = some t →
      (t.status = .completed ∨ t.status = .failed ∨ t.status = .cancelled) →
      MockAgentProvider.cancel_task s tid = (s, false)) ∧
    (∀ (s : MockState) (l : MockLabel) (s' : MockState), MockStep s l s' →
      ∀ (tid : String) (t t' : TaskStatus),
      s.tasks.find? tid = some t →
      s'.tasks.find? tid = some t' →
      (t.status = .completed ∨ t.status = .failed ∨ t.status = .cancelled) →
      (∀ req genId now, l = .submitTask req genId now →
        MockAgentProvider.resolve_task_id req genId ≠ tid) →
      (∀ now, l ≠ .execBegin tid now) →
      (∀ now, l ≠ .execFinish tid now) →
      t'.status = t.status) ∧
    (∀ (s : MockState) (tid : String) (req : TaskRequest) (now : Nat)
       (t : TaskStatus),
      s.tasks.find? tid = some t → t.status = .cancelled →
      ∃ t', (MockAgentProvider.execute_task_finish s tid req now).tasks.find?
        tid = some t' ∧ t'.status = .completed) ∧
    (∀ (s : MockState) (tid : String) (now : Nat) (t : TaskStatus)
       (aid : String),
      s.tasks.find? tid = some t → t.agent_id = some aid → ¬(aid = "") →
      s.agents.contains aid = true →
      ∃ t', (MockAgentProvider.execute_task_begin s tid now).1.tasks.find?
        tid = some t' ∧ t'.status = .running) := by
  refine ⟨?_, ?_, ?_, ?_⟩
  · intro s tid t h ht
    refine MockAgentProvider.cancel_task_of_terminal h ?_
    rintro (hq | hq) <;>
      rcases ht with h1 | h1 | h1 <;> rw [h1] at hq <;>
        exact TaskState.noConfusion hq
  · intro s l s' hstep tid t t' hf hf' hterm hsub hbeg hfin
    cases hstep with
    | init_op =>
      rw [MockAgentProvider.init_tasks] at hf'
      rw [hf] at hf'
      injection hf' with hh
      rw [hh]
    | shutdown_op =>
      rw [MockAgentProvider.shutdown_tasks] at hf'
      simp [AList.find?] at hf'
    | create_agent =>
      rw [MockAgentProvider.create_agent_tasks] at hf'
      rw [hf] at hf'
      injection hf' with hh
      rw [hh]
    | delete_agent =>
      rw [MockAgentProvider.delete_agent_tasks] at hf'
      rw [hf] at hf'
      injection hf' with hh
      rw [hh]
    | submit_task =>
      rename_i req genId now
      have hr := hsub req genId now rfl
      have hk : tid ≠ MockAgentProvider.resolve_task_id req genId :=
        fun he => hr he.symm
      rw [MockAgentProvider.submit_task_fst,
        AList.find?_insert_ne _ _ hk] at hf'
      rw [hf] at hf'
      injection hf' with hh
      rw [hh]
    | exec_begin h' =>
      rename_i tid0 req now
      by_cases htid : tid0 = tid
      · subst htid
        exact absurd rfl (hbeg now)
      · have hk : tid ≠ tid0 := fun he => htid he.symm
        rw [MockAgentProvider.exec_begin_step_tasks_find_ne now hk] at hf'
        rw [hf] at hf'
        injection hf' with hh
        rw [hh]
    | exec_finish h' =>
      rename_i tid0 req now
      by_cases htid : tid0 = tid
      · subst htid
        exact absurd rfl (hfin now)
      · have hk : tid ≠ tid0 := fun he => htid he.symm
        rw [MockAgentProvider.exec_finish_step_tasks_find_ne req now hk] at hf'
        rw [hf] at hf'
        injection hf' with hh
        rw [hh]
    | cancel_task =>
      rename_i tid0
      by_cases htid : tid0 = tid
      · subst htid
        have ht : ¬(t.status = .queued ∨ t.status = .running) := by
          rintro (hq | hq) <;>
            rcases hterm with h1 | h1 | h1 <;> rw [h1] at hq <;>
              exact TaskState.noConfusion hq
        rw [MockAgentProvider.cancel_task_of_terminal hf ht] at hf'
        rw [hf] at hf'
        injection hf' with hh
        rw [hh]
      · have hk : tid ≠ tid0 := fun he => htid he.symm
        rw [MockAgentProvider.cancel_task_tasks_find_ne hk] at hf'
        rw [hf] at hf'
        injection hf' with hh
        rw [hh]
  · intro s tid req now t h _
    have hfound : (MockAgentProvider.execute_task_finish s tid req now).tasks.find? tid = some { t with status := TaskState.completed, completed_at := some now, result := some ("Task " ++ tid ++ " completed successfully", req.input_data) } := by
      rw [MockAgentProvider.execute_task_finish_tasks_of_some req now h]
      exact AList.find?_insert_self _ _ _
    exact ⟨_, hfound, rfl⟩
  · intro s tid now t aid h ha hne hc
    have hfound : (MockAgentProvider.execute_task_begin s tid now).1.tasks.find? tid = some { t with status := TaskState.running, started_at := some now } := by
      rw [MockAgentProvider.execute_task_begin_of_ok now h ha hne hc]
      exact AList.find?_insert_self _ _ _
    exact ⟨_, hfound, rfl⟩

/-- Witness for C1: cancelling an already-failed task is refused without a
state change, and the execution unit's second half overwrites the concrete
cancelled task with a completed record. -/
theorem C1_monotonic_amended_witness :
    MockAgentProvider.cancel_task mockWithFailedStamped "t1" =
      (mockWithFailedStamped, false) ∧
    (∃ t', (MockAgentProvider.execute_task_finish mockWithCancelled "t1"
        plainReq 12).tasks.find? "t1" = some t' ∧ t'.status = .completed) :=
  ⟨C1_monotonic_amended.1 mockWithFailedStamped "t1" failedStampedTask
     (by decide) (Or.inr (Or.inl rfl)),
   C1_monotonic_amended.2.2.1 mockWithCancelled "t1" plainReq 12
     cancelledTask (by decide) rfl⟩

end PmNet

